import Mathlib

/-!
TransactionAuthSystem: the transaction authorization workflow.

A shallow embedding of the full-featured workflow of the repository
(`src/models/Transaction.js`, `src/models/AuditLog.js`, `src/services/transactionService.js`,
`src/services/twoFactorService.js`, `src/controllers/transactionController.js`,
`src/controllers/authController.js`, `src/controllers/auditController.js`,
`src/middleware/auth.js`, `src/middleware/validation.js`, `src/routes/transactions.js`,
`src/routes/audit.js`) together with the properties established about it.

Conventions of the embedding:

* JavaScript numbers that carry money amounts are rationals (`ℚ`); the code only ever
  compares them with integer thresholds.
* Points in time are seconds since the epoch (`Nat`); `new Date()` is the `now` field of
  the environment and `new Date().getHours()` its `hour` field.
* MongoDB collections are lists of documents; an `ObjectId` is a natural number, and the
  id given to a new document is the `freshId` field of the environment.
* An `async` function that may throw returns `Except String _`, the string being the
  message of the thrown `Error`.
* The `User` model and the `speakeasy` library are not among the sources; what the code
  uses of them is modelled from the specification, and said so at each definition.
-/

namespace TransactionAuth

/-! ## Data model -/

abbrev ObjectId := Nat

abbrev Date := Nat

/-- The `status` enum of `transactionSchema`. -/
inductive Status where
  | pending
  | approved
  | rejected
  | completed
  | failed
  deriving DecidableEq, Repr

/-- The clock, the id generator and the process configuration seen by one request. -/
structure Env where
  now : Date
  hour : Nat
  freshId : ObjectId
  jwtSecret : String
  rateLimited : Bool
  deriving DecidableEq, Repr

/-- A request body of `POST /api/transactions`, with the keys of the Joi
`transactionSchema` of `middleware/validation.js` (the schema rejects any other key). -/
structure Body where
  amount : ℚ
  currency : Option String
  type : String
  fromAccount : String
  toAccount : String
  description : Option String
  deriving DecidableEq, Repr

/-- The object literal built by `TransactionController.createTransaction`:
`{ ...req.body, userId, ipAddress, userAgent }`. -/
structure TransactionData where
  amount : ℚ
  currency : Option String
  type : String
  fromAccount : String
  toAccount : String
  description : Option String
  userId : ObjectId
  ipAddress : Option String
  userAgent : Option String
  deriving DecidableEq, Repr

/-- A document of the `Transaction` model (`models/Transaction.js`). -/
structure Transaction where
  _id : ObjectId
  userId : ObjectId
  amount : ℚ
  currency : String
  type : String
  status : Status
  fromAccount : String
  toAccount : String
  description : Option String
  requiresApproval : Bool
  approvedBy : Option ObjectId
  approvedAt : Option Date
  twoFactorVerified : Bool
  riskScore : Nat
  ipAddress : Option String
  userAgent : Option String
  createdAt : Option Date
  updatedAt : Option Date
  deriving DecidableEq, Repr

/-! ## models/Transaction.js -/

/-- The values of the `type` enum of `transactionSchema`. -/
def transactionTypes : List String := ["transfer", "withdrawal", "payment", "deposit"]

/-- The constructor `new Transaction(transactionData)`: the given paths are copied, the
others take the schema defaults (`status: 'pending'`, `requiresApproval: false`,
`approvedBy: null`, `approvedAt: null`, `twoFactorVerified: false`, `riskScore: 0`,
`currency: 'USD'` with the `uppercase` setter). -/
def Transaction.new (env : Env) (transactionData : TransactionData) : Transaction :=
  { _id := env.freshId
    userId := transactionData.userId
    amount := transactionData.amount
    currency := (transactionData.currency.getD "USD").toUpper
    type := transactionData.type
    status := Status.pending
    fromAccount := transactionData.fromAccount
    toAccount := transactionData.toAccount
    description := transactionData.description
    requiresApproval := false
    approvedBy := none
    approvedAt := none
    twoFactorVerified := false
    riskScore := 0
    ipAddress := transactionData.ipAddress
    userAgent := transactionData.userAgent
    createdAt := none
    updatedAt := none }

/-- The validators declared in `transactionSchema`: `amount` has `min: 0`, `type` is in
the enum, `fromAccount` and `toAccount` are required (non-empty), `description` has
`maxlength: 500`, `riskScore` has `min: 0` and `max: 100`. -/
def Transaction.validate (t : Transaction) : Bool :=
  decide (0 ≤ t.amount) && transactionTypes.contains t.type
    && t.fromAccount != "" && t.toAccount != ""
    && (match t.description with
        | none => true
        | some d => decide (d.length ≤ 500))
    && decide (t.riskScore ≤ 100)

/-- The hook `transactionSchema.pre('save', ...)`:
`if (this.amount > 5000) { this.requiresApproval = true; this.status = 'pending'; }`. -/
def Transaction.preSave (t : Transaction) : Transaction :=
  if t.amount > 5000 then { t with requiresApproval := true, status := Status.pending }
  else t

/-- `Transaction.findById(id)`: the stored document with that id, or `null`. -/
def Transaction.findById (coll : List Transaction) (id : ObjectId) : Option Transaction :=
  coll.find? (fun t => t._id == id)

/-- The write of a document into the collection: it replaces the stored document with the
same id, or is inserted when there is none. -/
def Transaction.persist (coll : List Transaction) (t : Transaction) : List Transaction :=
  if coll.any (fun x => x._id == t._id) then
    coll.map (fun x => if x._id == t._id then t else x)
  else coll ++ [t]

/-- The call `transaction.save()`: schema validation, then the pre-save hook, then the
write with the `timestamps: true` bookkeeping. It returns the document as it is after
the call (the hook mutates `this`) and the new collection, or throws the validation
error. -/
def Transaction.save (env : Env) (coll : List Transaction) (t : Transaction) :
    Except String (Transaction × List Transaction) :=
  if !t.validate then Except.error "Transaction validation failed"
  else
    let t1 := t.preSave
    let t2 := { t1 with createdAt := some (t1.createdAt.getD env.now), updatedAt := some env.now }
    Except.ok (t2, Transaction.persist coll t2)

/-! ## services/transactionService.js -/

namespace TransactionService

/-- `TransactionService.calculateRiskScore(transactionData)`, the hour of
`new Date().getHours()` being an input. -/
def calculateRiskScore (transactionData : TransactionData) (hour : Nat) : Nat :=
  let riskScore := 0
  let riskScore :=
    if transactionData.amount > 10000 then riskScore + 40
    else if transactionData.amount > 5000 then riskScore + 20
    else if transactionData.amount > 1000 then riskScore + 10
    else riskScore
  let riskScore := if hour < 6 ∨ hour > 22 then riskScore + 15 else riskScore
  min riskScore 100

/-- `TransactionService.createTransaction(transactionData)`. -/
def createTransaction (env : Env) (coll : List Transaction) (transactionData : TransactionData) :
    Except String (Transaction × List Transaction) :=
  let transaction := Transaction.new env transactionData
  let transaction := { transaction with riskScore := calculateRiskScore transactionData env.hour }
  Transaction.save env coll transaction

/-- `TransactionService.approveTransaction(transactionId, approverId)`. -/
def approveTransaction (env : Env) (coll : List Transaction) (transactionId approverId : ObjectId) :
    Except String (Transaction × List Transaction) :=
  match Transaction.findById coll transactionId with
  | none => Except.error "Transaction not found"
  | some transaction =>
    if transaction.status ≠ Status.pending then Except.error "Transaction cannot be approved"
    else
      let transaction := { transaction with
        status := Status.approved, approvedBy := some approverId, approvedAt := some env.now }
      Transaction.save env coll transaction

/-- `TransactionService.rejectTransaction(transactionId, approverId)`. -/
def rejectTransaction (env : Env) (coll : List Transaction) (transactionId approverId : ObjectId) :
    Except String (Transaction × List Transaction) :=
  match Transaction.findById coll transactionId with
  | none => Except.error "Transaction not found"
  | some transaction =>
    if transaction.status ≠ Status.pending then Except.error "Transaction cannot be rejected"
    else
      let transaction := { transaction with
        status := Status.rejected, approvedBy := some approverId, approvedAt := some env.now }
      Transaction.save env coll transaction

end TransactionService

/-! ## Identities, bearer tokens, requests and responses -/

/-- Modelled from the spec: the `User` model (`models/User.js`) is required by the
middleware and the controllers but its file is not part of the sources. The fields are
those of the spec's Identity (id, email, role, TOTP secret, 2FA-enabled flag,
failed-attempt counter, lock-until, last-login) and the `isActive` flag read by
`authenticate`. The field `twoFactorVerified` is what reading the property
`twoFactorVerified` of a loaded document gives: `none` (JavaScript `undefined`) when the
schema has no such path, as in the spec's Identity. -/
structure User where
  _id : ObjectId
  email : String
  role : String
  isActive : Bool
  twoFactorSecret : Option String
  twoFactorEnabled : Bool
  loginAttempts : Nat
  lockUntil : Option Date
  lastLogin : Option Date
  twoFactorVerified : Option Bool
  deriving DecidableEq, Repr

/-- Modelled from the spec: the method `user.isLocked()` of the missing `User` model,
"lock-until > now". -/
def User.isLocked (u : User) (now : Date) : Bool :=
  match u.lockUntil with
  | none => false
  | some t => decide (t > now)

/-- `User.findById(id)`. -/
def User.findById (coll : List User) (id : ObjectId) : Option User :=
  coll.find? (fun u => u._id == id)

/-- The payload given to `jwt.sign` by the controllers. The login token has no
`twoFactorVerified` key; the token of `verify2FA` has `twoFactorVerified: true`. -/
structure Claims where
  userId : ObjectId
  email : String
  role : String
  twoFactorVerified : Option Bool
  deriving DecidableEq, Repr

/-- A signed JSON web token: its payload, the key it was signed with and its expiry. -/
structure Jwt where
  payload : Claims
  signedWith : String
  exp : Date
  deriving DecidableEq, Repr

/-- What the `Authorization` header holds once `'Bearer '` is stripped: a string that is
no token at all, or a signed token. -/
inductive Token where
  | malformed
  | signed (jwt : Jwt)
  deriving DecidableEq, Repr

/-- `jwt.sign(payload, secret, { expiresIn })`. -/
def jwtSign (payload : Claims) (secret : String) (now expiresIn : Nat) : Jwt :=
  { payload := payload, signedWith := secret, exp := now + expiresIn }

/-- `jwt.verify(token, secret)`: the payload when the signature matches and the token has
not expired, an exception otherwise. -/
def jwtVerify (token : Token) (secret : String) (now : Date) : Except String Claims :=
  match token with
  | Token.malformed => Except.error "jwt malformed"
  | Token.signed jwt =>
    if jwt.signedWith ≠ secret then Except.error "invalid signature"
    else if jwt.exp ≤ now then Except.error "jwt expired"
    else Except.ok jwt.payload

/-- The token minted by `AuthController.verify2FA` once the one-time code has verified:
`jwt.sign({ userId, email, role, twoFactorVerified: true }, config.jwtSecret,
{ expiresIn: '12h' })`. -/
def verify2FAAuthToken (env : Env) (user : User) : Jwt :=
  jwtSign { userId := user._id, email := user.email, role := user.role,
            twoFactorVerified := some true } env.jwtSecret env.now (12 * 3600)

/-- The route parameters `req.params`. -/
structure Params where
  transactionId : Option ObjectId
  id : Option ObjectId
  deriving DecidableEq, Repr

/-- An audit wrapper installed on `res.send` by the `audit(action, resourceType)`
middleware. -/
structure AuditWrapper where
  action : String
  resourceType : Option String
  deriving DecidableEq, Repr

/-- The request object `req` together with the wrappers that the middlewares run so far
have put around `res.send`. Express creates it with `req.user` undefined and no wrapper;
`authenticate` sets `req.user`. -/
structure Req where
  authorization : Option Token
  body : Option Body
  params : Params
  ip : Option String
  userAgent : Option String
  method : String
  originalUrl : String
  user : Option User
  sendWrappers : List AuditWrapper
  deriving DecidableEq, Repr

/-- The `data` member of a JSON response of the transaction controller. -/
inductive Payload where
  | transaction (t : Transaction)
  | listing (items : List Transaction) (page limit total pages : Nat)
  deriving DecidableEq, Repr

/-- A response: the HTTP status and the members of the JSON body. -/
structure Response where
  status : Nat
  success : Bool
  message : String
  data : Option Payload
  error : Option String
  deriving DecidableEq, Repr

/-- The member `response.data?._id` read by the audit wrapper. -/
def Response.dataId (r : Response) : Option ObjectId :=
  match r.data with
  | some (Payload.transaction t) => some t._id
  | _ => none

/-- A document of the `AuditLog` model (`models/AuditLog.js`). -/
structure AuditLog where
  action : String
  userId : ObjectId
  userEmail : String
  userRole : String
  resourceId : Option ObjectId
  resourceType : Option String
  ipAddress : Option String
  userAgent : Option String
  method : String
  url : String
  body : Option Body
  timestamp : Date
  deriving DecidableEq, Repr

/-- The persistent state: the three collections. -/
structure World where
  users : List User
  transactions : List Transaction
  auditLogs : List AuditLog
  deriving DecidableEq, Repr

/-- The values of the `action` enum of `auditLogSchema`. -/
def auditActions : List String :=
  ["login", "logout", "transaction_create", "transaction_approve", "transaction_reject",
   "user_create", "user_update", "2fa_enable", "2fa_disable", "password_change", "role_change"]

/-- `AuditLog.create(doc).catch(console.error)`: the document is appended when it passes
the schema validators (`action` in the enum, `userEmail` and `userRole` required);
otherwise the rejection is logged and nothing is written. -/
def AuditLog.create (coll : List AuditLog) (doc : AuditLog) : List AuditLog :=
  if auditActions.contains doc.action && doc.userEmail != "" && doc.userRole != "" then
    coll ++ [doc]
  else coll

/-! ## middleware/auth.js, middleware/validation.js, middleware/security.js -/

/-- What a middleware does: it hands the request to the next handler, or it answers. -/
inductive Step where
  | next (req : Req)
  | respond (r : Response)
  deriving DecidableEq, Repr

/-- The message of the `TypeError` raised by reading a property of `req.user` while it is
undefined. -/
def undefinedUserError : String := "Cannot read properties of undefined"

/-- The answer of the default Express error handler to an exception thrown by a
synchronous middleware. -/
def internalServerError : Response :=
  { status := 500, success := false, message := "Internal Server Error", data := none,
    error := some undefinedUserError }

/-- The middleware `authenticate`. -/
def authenticate (env : Env) (w : World) (req : Req) : Step :=
  match req.authorization with
  | none =>
    Step.respond { status := 401, success := false,
                   message := "Access denied. No token provided.", data := none, error := none }
  | some token =>
    match jwtVerify token env.jwtSecret env.now with
    | Except.error _ =>
      Step.respond { status := 401, success := false, message := "Invalid token.",
                     data := none, error := none }
    | Except.ok decoded =>
      match User.findById w.users decoded.userId with
      | none =>
        Step.respond { status := 401, success := false,
                       message := "Invalid token or user inactive.", data := none, error := none }
      | some user =>
        if !user.isActive then
          Step.respond { status := 401, success := false,
                         message := "Invalid token or user inactive.", data := none, error := none }
        else if user.isLocked env.now then
          Step.respond { status := 423, success := false,
                         message := "Account temporarily locked due to too many failed attempts.",
                         data := none, error := none }
        else Step.next { req with user := some user }

/-- The 403 answer of `authorize`. -/
def insufficientPermissions : Response :=
  { status := 403, success := false, message := "Access denied. Insufficient permissions.",
    data := none, error := none }

/-- The middleware `authorize(...roles)`. -/
def authorize (roles : List String) (req : Req) : Step :=
  match req.user with
  | none => Step.respond internalServerError
  | some user =>
    if !roles.contains user.role then Step.respond insufficientPermissions
    else Step.next req

/-- The middleware `audit(action, resourceType)`: it wraps `res.send` and calls `next()`. -/
def audit (action : String) (resourceType : Option String) (req : Req) : Step :=
  Step.next { req with sendWrappers := AuditWrapper.mk action resourceType :: req.sendWrappers }

/-- One wrapper around `res.send`, run when the response is sent: when
`response.success` holds it creates the audit document, with
`resourceId: response.data?._id || req.params.id`; an exception inside (`req.user`
undefined) is swallowed by the wrapper. -/
def AuditWrapper.onSend (env : Env) (req : Req) (response : Response) (wr : AuditWrapper)
    (w : World) : World :=
  if response.success then
    match req.user with
    | none => w
    | some user =>
      let doc : AuditLog :=
        { action := wr.action
          userId := user._id
          userEmail := user.email
          userRole := user.role
          resourceId := (response.dataId).orElse (fun _ => req.params.id)
          resourceType := wr.resourceType
          ipAddress := req.ip
          userAgent := req.userAgent
          method := req.method
          url := req.originalUrl
          body := req.body
          timestamp := env.now }
      { w with auditLogs := AuditLog.create w.auditLogs doc }
  else w

/-- The call `res.json(body)`: the body goes through every wrapper installed on
`res.send`, then out. -/
def send (env : Env) (req : Req) (response : Response) (w : World) : Response × World :=
  (response, req.sendWrappers.foldl (fun acc wr => wr.onSend env req response acc) w)

/-- The limiter `transactionLimiter` of `middleware/security.js`: it answers 429 when the
client has gone over 10 requests in the running minute (`env.rateLimited`). -/
def transactionLimiter (env : Env) (req : Req) : Step :=
  if env.rateLimited then
    Step.respond { status := 429, success := false,
                   message := "Too many transaction requests, please slow down.",
                   data := none, error := none }
  else Step.next req

/-- The Joi `transactionSchema`: `amount` positive, `currency` of length 3, `type` one of
the four kinds, the accounts of 5 to 50 characters, `description` (optional) non-empty
and of at most 500 characters. The first failing rule gives the message. -/
def transactionSchemaError (body : Body) : Option String :=
  if ¬ (0 < body.amount) then some "Amount must be positive"
  else if (match body.currency with
           | none => false
           | some c => c.length != 3) then some "\"currency\" length must be 3 characters long"
  else if !transactionTypes.contains body.type then
    some "\"type\" must be one of [transfer, withdrawal, payment, deposit]"
  else if body.fromAccount.length < 5 ∨ 50 < body.fromAccount.length then
    some "\"fromAccount\" length is out of range"
  else if body.toAccount.length < 5 ∨ 50 < body.toAccount.length then
    some "\"toAccount\" length is out of range"
  else if (match body.description with
           | none => false
           | some d => d == "" || decide (500 < d.length)) then
    some "\"description\" is not allowed to be empty or is too long"
  else none

/-- The middleware `validateTransaction = validate(transactionSchema)`. -/
def validateTransaction (req : Req) : Step :=
  match req.body with
  | none =>
    Step.respond { status := 400, success := false, message := "Amount is required",
                   data := none, error := none }
  | some body =>
    match transactionSchemaError body with
    | some msg =>
      Step.respond { status := 400, success := false, message := msg, data := none, error := none }
    | none => Step.next req

/-! ## controllers/transactionController.js -/

namespace TransactionController

/-- The identifiers bound in the module scope of `controllers/transactionController.js`:
its two `require` lines and the class it declares. -/
def moduleScope : List String := ["TransactionService", "TwoFactorService", "TransactionController"]

/-- The evaluation of a free identifier of a module: a `ReferenceError` when the module
does not bind it. -/
def resolve (scope : List String) (name : String) : Except String Unit :=
  if scope.contains name then Except.ok () else Except.error (name ++ " is not defined")

/-- `TransactionController.createTransaction(req, res)`. A body without the required keys
(`req.body = none`) has `req.body.amount` undefined: the 2FA test is false and the save
fails on the required paths. -/
def createTransaction (env : Env) (w : World) (req : Req) : Response × World :=
  match req.user with
  | none =>
    send env req { status := 500, success := false, message := "Error creating transaction",
                   data := none, error := some undefinedUserError } w
  | some user =>
    let amountOver : Bool :=
      match req.body with
      | none => false
      | some body => decide (body.amount > 1000)
    if amountOver && !(user.twoFactorVerified.getD false) then
      send env req { status := 403, success := false,
                     message := "2FA verification required for high-value transactions",
                     data := none, error := none } w
    else
      match req.body with
      | none =>
        send env req { status := 500, success := false, message := "Error creating transaction",
                       data := none, error := some "Transaction validation failed" } w
      | some body =>
        let transactionData : TransactionData :=
          { amount := body.amount, currency := body.currency, type := body.type,
            fromAccount := body.fromAccount, toAccount := body.toAccount,
            description := body.description, userId := user._id, ipAddress := req.ip,
            userAgent := req.userAgent }
        match TransactionService.createTransaction env w.transactions transactionData with
        | Except.ok (transaction, coll) =>
          send env req { status := 201, success := true,
                         message := "Transaction created successfully",
                         data := some (Payload.transaction transaction), error := none }
            { w with transactions := coll }
        | Except.error e =>
          send env req { status := 500, success := false, message := "Error creating transaction",
                         data := none, error := some e } w

/-- `TransactionController.approveTransaction(req, res)`. -/
def approveTransaction (env : Env) (w : World) (req : Req) : Response × World :=
  match req.user, req.params.transactionId with
  | none, _ =>
    send env req { status := 400, success := false, message := undefinedUserError,
                   data := none, error := none } w
  | some _, none =>
    send env req { status := 400, success := false, message := "Transaction not found",
                   data := none, error := none } w
  | some user, some transactionId =>
    match TransactionService.approveTransaction env w.transactions transactionId user._id with
    | Except.ok (transaction, coll) =>
      send env req { status := 200, success := true,
                     message := "Transaction approved successfully",
                     data := some (Payload.transaction transaction), error := none }
        { w with transactions := coll }
    | Except.error e =>
      send env req { status := 400, success := false, message := e, data := none, error := none } w

/-- `TransactionController.rejectTransaction(req, res)`. -/
def rejectTransaction (env : Env) (w : World) (req : Req) : Response × World :=
  match req.user, req.params.transactionId with
  | none, _ =>
    send env req { status := 400, success := false, message := undefinedUserError,
                   data := none, error := none } w
  | some _, none =>
    send env req { status := 400, success := false, message := "Transaction not found",
                   data := none, error := none } w
  | some user, some transactionId =>
    match TransactionService.rejectTransaction env w.transactions transactionId user._id with
    | Except.ok (transaction, coll) =>
      send env req { status := 200, success := true,
                     message := "Transaction rejected successfully",
                     data := some (Payload.transaction transaction), error := none }
        { w with transactions := coll }
    | Except.error e =>
      send env req { status := 400, success := false, message := e, data := none, error := none } w

/-- The body of `getTransactionById` inside its `try`, in a module whose scope is `scope`:
the identifier `Transaction` is evaluated first, then the lookup, the `populate` of the
owner, the 404 and 403 answers and the success. A thrown error is the `Except.error`. -/
def getTransactionByIdBody (scope : List String) (w : World) (req : Req) :
    Except String Response := do
  resolve scope "Transaction"
  let transaction :=
    match req.params.transactionId with
    | none => none
    | some transactionId => Transaction.findById w.transactions transactionId
  match transaction with
  | none =>
    return { status := 404, success := false, message := "Transaction not found",
             data := none, error := none }
  | some transaction =>
    match req.user with
    | none => throw undefinedUserError
    | some user =>
      if user.role == "user" then
        match User.findById w.users transaction.userId with
        | none => throw "Cannot read properties of null"
        | some owner =>
          if owner._id != user._id then
            return { status := 403, success := false,
                     message := "Access denied to this transaction", data := none, error := none }
          else
            return { status := 200, success := true, message := "",
                     data := some (Payload.transaction transaction), error := none }
      else
        return { status := 200, success := true, message := "",
                 data := some (Payload.transaction transaction), error := none }

/-- `TransactionController.getTransactionById(req, res)`, in a module whose scope is
`scope`: the `try` body, and the `catch` answering 500. -/
def getTransactionByIdIn (scope : List String) (env : Env) (w : World) (req : Req) :
    Response × World :=
  match getTransactionByIdBody scope w req with
  | Except.ok response => send env req response w
  | Except.error e =>
    send env req { status := 500, success := false, message := "Error fetching transaction",
                   data := none, error := some e } w

/-- `TransactionController.getTransactionById(req, res)` as the module defines it. -/
def getTransactionById (env : Env) (w : World) (req : Req) : Response × World :=
  getTransactionByIdIn moduleScope env w req

end TransactionController

/-! ## routes/transactions.js, routes/audit.js -/

/-- The middlewares that the two routers mount. -/
inductive Middleware where
  | authenticate
  | authorize (roles : List String)
  | audit (action : String) (resourceType : Option String)
  | transactionLimiter
  | validateTransaction
  deriving DecidableEq, Repr

/-- The controller methods that the two routers mount as final handlers. -/
inductive Handler where
  | createTransaction
  | getUserTransactions
  | getTransactionById
  | getPendingApprovals
  | approveTransaction
  | rejectTransaction
  | getAuditLogs
  | getUserActivity
  deriving DecidableEq, Repr

/-- One `router.METHOD(path, ...middlewares, handler)` line. -/
structure Route where
  method : String
  path : String
  middlewares : List Middleware
  handler : Handler
  deriving DecidableEq, Repr

/-- The routes of `routes/transactions.js`, in the order of the file. -/
def transactionRoutes : List Route :=
  [ { method := "POST", path := "/",
      middlewares := [Middleware.authenticate, Middleware.transactionLimiter,
        Middleware.validateTransaction, Middleware.audit "transaction_create" (some "Transaction")],
      handler := Handler.createTransaction },
    { method := "GET", path := "/my-transactions",
      middlewares := [Middleware.authenticate],
      handler := Handler.getUserTransactions },
    { method := "GET", path := "/:transactionId",
      middlewares := [Middleware.authenticate],
      handler := Handler.getTransactionById },
    { method := "GET", path := "/pending/approvals",
      middlewares := [Middleware.authenticate, Middleware.authorize ["admin", "approver"]],
      handler := Handler.getPendingApprovals },
    { method := "PATCH", path := "/:transactionId/approve",
      middlewares := [Middleware.authenticate, Middleware.authorize ["admin", "approver"],
        Middleware.audit "transaction_approve" (some "Transaction")],
      handler := Handler.approveTransaction },
    { method := "PATCH", path := "/:transactionId/reject",
      middlewares := [Middleware.authenticate, Middleware.authorize ["admin", "approver"],
        Middleware.audit "transaction_reject" (some "Transaction")],
      handler := Handler.rejectTransaction } ]

/-- The routes of `routes/audit.js`. -/
def auditRoutes : List Route :=
  [ { method := "GET", path := "/logs",
      middlewares := [Middleware.authenticate, Middleware.authorize ["admin"]],
      handler := Handler.getAuditLogs },
    { method := "GET", path := "/user-activity/:userId",
      middlewares := [Middleware.authenticate, Middleware.authorize ["admin"]],
      handler := Handler.getUserActivity } ]

/-- One middleware applied to the request. -/
def Middleware.run (env : Env) (w : World) (m : Middleware) (req : Req) : Step :=
  match m with
  | Middleware.authenticate => TransactionAuth.authenticate env w req
  | Middleware.authorize roles => TransactionAuth.authorize roles req
  | Middleware.audit action resourceType => TransactionAuth.audit action resourceType req
  | Middleware.transactionLimiter => TransactionAuth.transactionLimiter env req
  | Middleware.validateTransaction => TransactionAuth.validateTransaction req

/-- How far a request gets in a route: to the final handler, with the request as the
middlewares have left it, or to an answer given by a middleware. -/
inductive Outcome where
  | reached (req : Req)
  | answered (req : Req) (r : Response)
  deriving DecidableEq, Repr

/-- The middlewares of a route run in order, each `next()` passing to the one after. -/
def runChain (env : Env) (w : World) : List Middleware → Req → Outcome
  | [], req => Outcome.reached req
  | m :: ms, req =>
    match m.run env w req with
    | Step.next req1 => runChain env w ms req1
    | Step.respond r => Outcome.answered req r

/-- A request served by the middlewares `mws` followed by the controller method
`handler`. -/
def serve (env : Env) (w : World) (mws : List Middleware)
    (handler : Env → World → Req → Response × World) (req : Req) : Response × World :=
  match runChain env w mws req with
  | Outcome.reached req1 => handler env w req1
  | Outcome.answered req1 r => send env req1 r w

/-- The route `POST /api/transactions`. -/
def postTransaction (env : Env) (w : World) (req : Req) : Response × World :=
  serve env w
    [Middleware.authenticate, Middleware.transactionLimiter, Middleware.validateTransaction,
     Middleware.audit "transaction_create" (some "Transaction")]
    TransactionController.createTransaction req

/-- The route `PATCH /api/transactions/:transactionId/approve`. -/
def patchApprove (env : Env) (w : World) (req : Req) : Response × World :=
  serve env w
    [Middleware.authenticate, Middleware.authorize ["admin", "approver"],
     Middleware.audit "transaction_approve" (some "Transaction")]
    TransactionController.approveTransaction req

/-- The route `PATCH /api/transactions/:transactionId/reject`. -/
def patchReject (env : Env) (w : World) (req : Req) : Response × World :=
  serve env w
    [Middleware.authenticate, Middleware.authorize ["admin", "approver"],
     Middleware.audit "transaction_reject" (some "Transaction")]
    TransactionController.rejectTransaction req

/-- The route `GET /api/transactions/:transactionId`. -/
def getTransaction (env : Env) (w : World) (req : Req) : Response × World :=
  serve env w [Middleware.authenticate] TransactionController.getTransactionById req

/-! ## Sample data -/

/-- A stored transaction of 6000, pending and requiring approval, owned by user 1. -/
def sampleHighValue : Transaction :=
  { _id := 7, userId := 1, amount := 6000, currency := "USD", type := "transfer",
    status := Status.pending, fromAccount := "ACC-00001", toAccount := "ACC-00002",
    description := none, requiresApproval := true, approvedBy := none, approvedAt := none,
    twoFactorVerified := false, riskScore := 20, ipAddress := none, userAgent := none,
    createdAt := some 100, updatedAt := some 100 }

/-- An environment: 14:00 local time, the clock at 5000 seconds, next id 8. -/
def sampleEnv : Env :=
  { now := 5000, hour := 14, freshId := 8, jwtSecret := "fallback-secret-key", rateLimited := false }

/-- The same environment one minute later. -/
def sampleEnvLater : Env := { sampleEnv with now := 5060 }

/-- User 1, a plain user as the spec describes an Identity (no step-up flag on the document). -/
def sampleUser : User :=
  { _id := 1, email := "a@example.com", role := "user", isActive := true,
    twoFactorSecret := some "JBSWY3DPEHPK3PXP", twoFactorEnabled := true, loginAttempts := 0,
    lockUntil := none, lastLogin := none, twoFactorVerified := none }

/-- User 2, an approver. -/
def sampleApprover : User :=
  { _id := 2, email := "b@example.com", role := "approver", isActive := true,
    twoFactorSecret := none, twoFactorEnabled := false, loginAttempts := 0,
    lockUntil := none, lastLogin := none, twoFactorVerified := none }

/-- A valid body for a transaction of the given amount. -/
def sampleBody (amount : ℚ) : Body :=
  { amount := amount, currency := some "USD", type := "transfer", fromAccount := "ACC-00001",
    toAccount := "ACC-00002", description := none }

/-- A request as Express creates it, carrying the given token, body and transaction id. -/
def sampleReq (token : Option Token) (body : Option Body) (transactionId : Option ObjectId) : Req :=
  { authorization := token, body := body,
    params := { transactionId := transactionId, id := none },
    ip := some "127.0.0.1", userAgent := none, method := "POST",
    originalUrl := "/api/transactions", user := none, sendWrappers := [] }

/-- A world with the two sample users and the stored pending transaction of 6000. -/
def sampleWorld : World :=
  { users := [sampleUser, sampleApprover], transactions := [sampleHighValue], auditLogs := [] }

/-- The transaction data that `createTransaction` builds from a body for user 1. -/
def sampleData (amount : ℚ) : TransactionData :=
  { amount := amount, currency := some "USD", type := "transfer", fromAccount := "ACC-00001",
    toAccount := "ACC-00002", description := none, userId := 1, ipAddress := none,
    userAgent := none }

/-- User 1 as `req.user` is when the loaded document carries a true step-up flag. -/
def sampleVerifiedUser : User := { sampleUser with twoFactorVerified := some true }

/-- The bearer token that `verify2FA` mints for user 1: `twoFactorVerified: true`, 12 hours. -/
def sampleFullToken : Token := Token.signed (verify2FAAuthToken sampleEnv sampleUser)

/-- The bearer token that `verify2FA` mints for the approver, user 2. -/
def sampleApproverToken : Token := Token.signed (verify2FAAuthToken sampleEnv sampleApprover)

/-- A request as the create controller receives it: `req.user` set, a valid body of the
given amount, the audit wrapper of the route installed. -/
def sampleCreateReq (user : User) (amount : ℚ) : Req :=
  { sampleReq none (some (sampleBody amount)) none with
    user := some user
    sendWrappers := [AuditWrapper.mk "transaction_create" (some "Transaction")] }

/-- A stored transaction of 3000 already approved by user 2. -/
def sampleResolved : Transaction :=
  { sampleHighValue with
    _id := 9, amount := 3000, status := Status.approved, requiresApproval := false,
    approvedBy := some 2, approvedAt := some 4000, riskScore := 10 }

/-- The sample world with the resolved transaction added. -/
def sampleWorldResolved : World :=
  { sampleWorld with transactions := [sampleHighValue, sampleResolved] }

/-- A request to resolve transaction 9 by the approver: the approver's token, `req.user`
set, the audit wrapper of the approve route installed. -/
def sampleResolveReq : Req :=
  { sampleReq (some sampleApproverToken) none (some 9) with
    user := some sampleApprover
    method := "PATCH"
    originalUrl := "/api/transactions/9/approve"
    sendWrappers := [AuditWrapper.mk "transaction_approve" (some "Transaction")] }

/-- The route `PATCH /:transactionId/approve` of `routes/transactions.js`. -/
def sampleApproveRoute : Route :=
  { method := "PATCH", path := "/:transactionId/approve",
    middlewares := [Middleware.authenticate, Middleware.authorize ["admin", "approver"],
      Middleware.audit "transaction_approve" (some "Transaction")],
    handler := Handler.approveTransaction }

/-- The request of the approver for transaction 7 as the approve route hands it to the
handler. -/
def sampleReachedReq : Req :=
  { sampleReq (some sampleApproverToken) none (some 7) with
    user := some sampleApprover
    sendWrappers := [AuditWrapper.mk "transaction_approve" (some "Transaction")] }

/-! ## The risk bands as the specification words them -/

/-- The amount band of the specification: 40 above 10000, else 20 above 5000, else 10
above 1000, else 0. -/
def band (amount : ℚ) : Nat :=
  if amount > 10000 then 40 else if amount > 5000 then 20 else if amount > 1000 then 10 else 0

/-- The off-hours surcharge of the specification: 15 before 6 or after 22. -/
def offHours (h : Nat) : Nat := if h < 6 ∨ h > 22 then 15 else 0

/-! ## The one-time-password algorithm of the `speakeasy` library -/

namespace Totp

/-- Modelled from the spec: the library `speakeasy` is not part of the sources; the spec
names "the standard time-based one-time-password algorithm", that is RFC 6238 over the
HOTP of RFC 4226 with HMAC-SHA-1, six digits and 30-second steps (the defaults of the
library). This is the left rotation of a 32-bit word used by SHA-1. -/
def rotl32 (x n : Nat) : Nat := ((x <<< n) ||| (x >>> (32 - n))) % 4294967296

/-- The four bytes of a 32-bit word, most significant first. -/
def wordBytes (x : Nat) : List Nat := [x / 16777216 % 256, x / 65536 % 256, x / 256 % 256, x % 256]

/-- The 32-bit words of a byte string, four bytes each, most significant first. -/
def words : List Nat → List Nat
  | a :: b :: c :: d :: rest => (a * 16777216 + b * 65536 + c * 256 + d) :: words rest
  | _ => []

/-- The SHA-1 padding: a `0x80` byte, zeros up to 56 modulo 64, the bit length on 8 bytes. -/
def pad (msg : List Nat) : List Nat :=
  let bits := msg.length * 8
  msg ++ [128] ++ List.replicate ((119 - (msg.length % 64)) % 64) 0 ++
    [0, 0, 0, 0, bits / 16777216 % 256, bits / 65536 % 256, bits / 256 % 256, bits % 256]

/-- The message schedule of SHA-1: the first `n` words of the sequence that starts with
the 16 words of the block and goes on with
`w[t] = rotl1 (w[t-3] xor w[t-8] xor w[t-14] xor w[t-16])`. -/
def schedule : Nat → List Nat → List Nat
  | 0, _ => []
  | n + 1, [w0, w1, w2, w3, w4, w5, w6, w7, w8, w9, w10, w11, w12, w13, w14, w15] =>
    w0 :: schedule n [w1, w2, w3, w4, w5, w6, w7, w8, w9, w10, w11, w12, w13, w14, w15,
      rotl32 (w13 ^^^ w8 ^^^ w2 ^^^ w0) 1]
  | _, _ => []

/-- One round of the SHA-1 compression function on the state `(a, b, c, d, e)`. -/
def round (i w : Nat) : Nat × Nat × Nat × Nat × Nat → Nat × Nat × Nat × Nat × Nat
  | (a, b, c, d, e) =>
    let f :=
      if i < 20 then (b &&& c) ||| ((b ^^^ 4294967295) &&& d)
      else if i < 40 then b ^^^ c ^^^ d
      else if i < 60 then (b &&& c) ||| (b &&& d) ||| (c &&& d)
      else b ^^^ c ^^^ d
    let k :=
      if i < 20 then 1518500249 else if i < 40 then 1859775393
      else if i < 60 then 2400959708 else 3395469782
    ((rotl32 a 5 + f + e + k + w) % 4294967296, a, rotl32 b 30, c, d)

/-- The rounds of one block, from round `i` on, one per word of the schedule. -/
def rounds (i : Nat) (s : Nat × Nat × Nat × Nat × Nat) : List Nat → Nat × Nat × Nat × Nat × Nat
  | [] => s
  | w :: ws => rounds (i + 1) (round i w s) ws

/-- The SHA-1 compression of one block of 16 words into the chaining value. -/
def compress (h : Nat × Nat × Nat × Nat × Nat) (block : List Nat) : Nat × Nat × Nat × Nat × Nat :=
  match h, rounds 0 h (schedule 80 block) with
  | (a, b, c, d, e), (a1, b1, c1, d1, e1) =>
    ((a + a1) % 4294967296, (b + b1) % 4294967296, (c + c1) % 4294967296,
     (d + d1) % 4294967296, (e + e1) % 4294967296)

/-- The first `fuel` blocks of 16 words of a word list. -/
def blocks : Nat → List Nat → List (List Nat)
  | 0, _ => []
  | fuel + 1, l => if l.length < 16 then [] else l.take 16 :: blocks fuel (l.drop 16)

/-- SHA-1 of a byte string, as 20 bytes. -/
def sha1 (msg : List Nat) : List Nat :=
  let ws := words (pad msg)
  match (blocks (ws.length / 16) ws).foldl compress
      (1732584193, 4023233417, 2562383102, 271733878, 3285377520) with
  | (a, b, c, d, e) => wordBytes a ++ wordBytes b ++ wordBytes c ++ wordBytes d ++ wordBytes e

/-- HMAC-SHA-1 (RFC 2104) of a message under a key, as 20 bytes. -/
def hmacSha1 (key msg : List Nat) : List Nat :=
  let key1 := if key.length > 64 then sha1 key else key
  let key2 := key1 ++ List.replicate (64 - key1.length) 0
  sha1 (key2.map (fun b => b ^^^ 92) ++ sha1 (key2.map (fun b => b ^^^ 54) ++ msg))

/-- The counter of HOTP as 8 bytes, most significant first. -/
def counterBytes (c : Nat) : List Nat :=
  [c / 72057594037927936 % 256, c / 281474976710656 % 256, c / 1099511627776 % 256,
   c / 4294967296 % 256, c / 16777216 % 256, c / 65536 % 256, c / 256 % 256, c % 256]

/-- The value of a character of the base32 alphabet `A-Z2-7` (RFC 4648). -/
def base32Value (ch : Char) : Option Nat :=
  if 65 ≤ ch.toNat ∧ ch.toNat ≤ 90 then some (ch.toNat - 65)
  else if 50 ≤ ch.toNat ∧ ch.toNat ≤ 55 then some (ch.toNat - 24)
  else none

/-- One character of a base32 string read into the state (pending bits, their number,
the bytes decoded so far). -/
def base32Step (st : Nat × Nat × List Nat) (ch : Char) : Nat × Nat × List Nat :=
  match st, base32Value ch with
  | st, none => st
  | (buf, n, out), some v =>
    if n + 5 ≥ 8 then
      ((buf * 32 + v) % 2 ^ (n + 5 - 8), n + 5 - 8, out ++ [(buf * 32 + v) / 2 ^ (n + 5 - 8)])
    else (buf * 32 + v, n + 5, out)

/-- The bytes that a base32 string encodes. -/
def base32Decode (s : String) : List Nat := (s.toList.foldl base32Step (0, 0, [])).2.2

/-- HOTP of RFC 4226 for a raw key: the dynamic truncation of the HMAC of the counter,
reduced to six decimal digits. -/
def hotpOfKey (key : List Nat) (counter : Nat) : Nat :=
  let h := hmacSha1 key (counterBytes counter)
  let off := h.getD 19 0 % 16
  ((h.getD off 0 % 128) * 16777216 + h.getD (off + 1) 0 * 65536 + h.getD (off + 2) 0 * 256
    + h.getD (off + 3) 0) % 1000000

/-- The one-time code of a base32 secret at a counter: the value of the six-digit string
of `speakeasy.hotp({ secret, encoding: 'base32', counter })`. -/
def hotp (secret : String) (counter : Nat) : Nat := hotpOfKey (base32Decode secret) counter

/-- The time-step of a time in seconds: `Math.floor(time / 30)`. -/
def counterAt (time : Date) : Nat := time / 30

/-- The one-time code generated for the time `time`: `speakeasy.totp({ secret, time })`. -/
def generate (secret : String) (time : Date) : Nat := hotp secret (counterAt time)

/-- Modelled from the spec: `speakeasy.totp.verify({ secret, encoding: 'base32', token,
window })` at the time `time`, "accepting the current time-step and one step on either
side" for `window = 1`: the token, a six-digit string given by its value, is compared with
the codes of the steps `counter - window` to `counter + window`, in that order (a step
before the epoch has no code). -/
def verify (secret : String) (token : Nat) (window : Nat) (time : Date) : Bool :=
  (List.range (2 * window + 1)).any (fun i =>
    decide (window ≤ counterAt time + i) && hotp secret (counterAt time + i - window) == token)

end Totp

/-! ## services/twoFactorService.js -/

/-- Modelled from the spec: `user.save()` and `User.findByIdAndUpdate` of the missing
`User` model write the document over the stored one with the same id. -/
def User.persist (coll : List User) (u : User) : List User :=
  if coll.any (fun x => x._id == u._id) then
    coll.map (fun x => if x._id == u._id then u else x)
  else coll ++ [u]

/-- `User.findByIdAndUpdate(id, update)`: the update applied to the stored document with
that id, when there is one. -/
def User.findByIdAndUpdate (coll : List User) (id : ObjectId) (update : User → User) : List User :=
  coll.map (fun x => if x._id == id then update x else x)

/-- `User.findOne({ email })`. -/
def User.findOne (coll : List User) (email : String) : Option User :=
  coll.find? (fun u => u.email == email)

namespace TwoFactorService

/-- `TwoFactorService.verifyToken(user, token)`: `speakeasy.totp.verify` with the stored
secret and `window: 1`; the library throws on a missing secret. The function reads the
user and returns a boolean: it has no state to write. -/
def verifyToken (env : Env) (user : User) (token : Nat) : Except String Bool :=
  match user.twoFactorSecret with
  | none => Except.error "secret is required"
  | some secret => Except.ok (Totp.verify secret token 1 env.now)

/-- `TwoFactorService.enable2FA(userId, token)`: it returns `true` and the new collection,
or throws. -/
def enable2FA (env : Env) (users : List User) (userId : ObjectId) (token : Nat) :
    Except String (Bool × List User) :=
  match User.findById users userId with
  | none => Except.error "Cannot read properties of null"
  | some user =>
    if user.twoFactorSecret = none ∨ user.twoFactorSecret = some "" then
      Except.error "2FA secret not generated"
    else
      match verifyToken env user token with
      | Except.error e => Except.error e
      | Except.ok isValid =>
        if !isValid then Except.error "Invalid 2FA token"
        else
          let user := { user with twoFactorEnabled := true }
          Except.ok (true, User.persist users user)

/-- `TwoFactorService.disable2FA(userId)`. -/
def disable2FA (users : List User) (userId : ObjectId) : Bool × List User :=
  (true, User.findByIdAndUpdate users userId
    (fun u => { u with twoFactorEnabled := false, twoFactorSecret := none }))

end TwoFactorService

/-! ## controllers/authController.js -/

/-- What the authentication handlers depend on besides the clock and the configuration:
whether a write to the audit collection reaches the storage, and the password check of
the missing `User` model. -/
structure AuthEnv where
  env : Env
  auditWritable : Bool
  comparePassword : User → String → Bool

/-- The request of an authentication route: the members of `req.body` that the handlers
read (`email`, `password`, `role`, and `token`, the submitted one-time code), the client
address and agent, and `req.user` as `authenticate` sets it. -/
structure AuthReq where
  email : String
  password : String
  role : Option String
  token : Nat
  ip : Option String
  userAgent : Option String
  user : Option User
  deriving DecidableEq, Repr

/-- A response of an authentication handler: the HTTP status and the members of the JSON
body (`data.token`, the id in `data`, `data.requires2FA`, `error`). -/
structure AuthResponse where
  status : Nat
  success : Bool
  message : String
  token : Option Jwt
  userId : Option ObjectId
  requires2FA : Bool
  error : Option String
  deriving DecidableEq, Repr

/-- The awaited call `await AuditLog.create(doc)`: the new collection, or the exception of
a failed validation or of a write that does not reach the storage. -/
def AuditLog.createAwait (writable : Bool) (coll : List AuditLog) (doc : AuditLog) :
    Except String (List AuditLog) :=
  if !(auditActions.contains doc.action && doc.userEmail != "" && doc.userRole != "") then
    Except.error "AuditLog validation failed"
  else if !writable then Except.error "audit log write failed"
  else Except.ok (coll ++ [doc])

/-- The audit document that the authentication handlers build: action, user id, email and
role, address and agent; no resource and empty metadata. -/
def authAuditDoc (env : Env) (action : String) (user : User) (req : AuthReq) : AuditLog :=
  { action := action, userId := user._id, userEmail := user.email, userRole := user.role,
    resourceId := none, resourceType := none, ipAddress := req.ip, userAgent := req.userAgent,
    method := "", url := "", body := none, timestamp := env.now }

/-- Modelled from the spec: `new User({ email, password, role })` of the missing `User`
model, with the defaults of a new Identity: role `user` unless given, active, no secret,
2FA off, no failed attempt, no lock, no login yet. -/
def User.new (env : Env) (email : String) (role : Option String) : User :=
  { _id := env.freshId, email := email, role := role.getD "user", isActive := true,
    twoFactorSecret := none, twoFactorEnabled := false, loginAttempts := 0, lockUntil := none,
    lastLogin := none, twoFactorVerified := none }

/-- Modelled from the spec: `user.incrementLoginAttempts()` of the missing `User` model:
the failure counter goes up by one and, when it reaches the threshold of 5, lock-until is
set to now plus 30 minutes, in one update. -/
def User.incrementLoginAttempts (env : Env) (coll : List User) (u : User) : List User :=
  User.findByIdAndUpdate coll u._id (fun x =>
    if x.loginAttempts + 1 ≥ 5 then
      { x with loginAttempts := x.loginAttempts + 1, lockUntil := some (env.now + 30 * 60) }
    else { x with loginAttempts := x.loginAttempts + 1 })

namespace AuthController

/-- `AuthController.register(req, res)`. -/
def register (a : AuthEnv) (w : World) (req : AuthReq) : AuthResponse × World :=
  match User.findOne w.users req.email with
  | some _ =>
    ({ status := 400, success := false, message := "User already exists with this email",
       token := none, userId := none, requires2FA := false, error := none }, w)
  | none =>
    let user := User.new a.env req.email req.role
    let w1 := { w with users := User.persist w.users user }
    match AuditLog.createAwait a.auditWritable w1.auditLogs (authAuditDoc a.env "user_create" user req) with
    | Except.error e =>
      ({ status := 500, success := false, message := "Error registering user",
         token := none, userId := none, requires2FA := false, error := some e }, w1)
    | Except.ok logs =>
      ({ status := 201, success := true, message := "User registered successfully",
         token := none, userId := some user._id, requires2FA := false, error := none },
       { w1 with auditLogs := logs })

/-- `AuthController.login(req, res)`. -/
def login (a : AuthEnv) (w : World) (req : AuthReq) : AuthResponse × World :=
  match User.findOne w.users req.email with
  | none =>
    ({ status := 401, success := false, message := "Invalid credentials",
       token := none, userId := none, requires2FA := false, error := none }, w)
  | some user =>
    if !user.isActive then
      ({ status := 401, success := false, message := "Invalid credentials",
         token := none, userId := none, requires2FA := false, error := none }, w)
    else if user.isLocked a.env.now then
      ({ status := 423, success := false,
         message := "Account temporarily locked. Please try again later.",
         token := none, userId := none, requires2FA := false, error := none }, w)
    else if !a.comparePassword user req.password then
      ({ status := 401, success := false, message := "Invalid credentials",
         token := none, userId := none, requires2FA := false, error := none },
       { w with users := User.incrementLoginAttempts a.env w.users user })
    else
      let w1 := { w with users := User.findByIdAndUpdate w.users user._id (fun x =>
        { x with loginAttempts := 0, lockUntil := none, lastLogin := some a.env.now }) }
      let token := jwtSign { userId := user._id, email := user.email, role := user.role,
                             twoFactorVerified := none } a.env.jwtSecret a.env.now (24 * 3600)
      match AuditLog.createAwait a.auditWritable w1.auditLogs (authAuditDoc a.env "login" user req) with
      | Except.error e =>
        ({ status := 500, success := false, message := "Error during login",
           token := none, userId := none, requires2FA := false, error := some e }, w1)
      | Except.ok logs =>
        ({ status := 200, success := true,
           message := if user.twoFactorEnabled then "2FA verification required" else "Login successful",
           token := some token, userId := some user._id, requires2FA := user.twoFactorEnabled,
           error := none },
         { w1 with auditLogs := logs })

/-- `AuthController.verify2FA(req, res)`. -/
def verify2FA (a : AuthEnv) (w : World) (req : AuthReq) : AuthResponse × World :=
  match req.user with
  | none =>
    ({ status := 500, success := false, message := "Error during 2FA verification",
       token := none, userId := none, requires2FA := false, error := some undefinedUserError }, w)
  | some user =>
    match TwoFactorService.verifyToken a.env user req.token with
    | Except.error e =>
      ({ status := 500, success := false, message := "Error during 2FA verification",
         token := none, userId := none, requires2FA := false, error := some e }, w)
    | Except.ok isValid =>
      if !isValid then
        ({ status := 401, success := false, message := "Invalid 2FA token",
           token := none, userId := none, requires2FA := false, error := none }, w)
      else
        let authToken := jwtSign { userId := user._id, email := user.email, role := user.role,
                                   twoFactorVerified := some true } a.env.jwtSecret a.env.now (12 * 3600)
        ({ status := 200, success := true, message := "2FA verification successful",
           token := some authToken, userId := some user._id, requires2FA := false,
           error := none }, w)

/-- `AuthController.enable2FA(req, res)`. -/
def enable2FA (a : AuthEnv) (w : World) (req : AuthReq) : AuthResponse × World :=
  match req.user with
  | none =>
    ({ status := 400, success := false, message := undefinedUserError,
       token := none, userId := none, requires2FA := false, error := none }, w)
  | some user =>
    match TwoFactorService.enable2FA a.env w.users user._id req.token with
    | Except.error e =>
      ({ status := 400, success := false, message := e,
         token := none, userId := none, requires2FA := false, error := none }, w)
    | Except.ok (_, users) =>
      let w1 := { w with users := users }
      match AuditLog.createAwait a.auditWritable w1.auditLogs (authAuditDoc a.env "2fa_enable" user req) with
      | Except.error e =>
        ({ status := 400, success := false, message := e,
           token := none, userId := none, requires2FA := false, error := none }, w1)
      | Except.ok logs =>
        ({ status := 200, success := true, message := "2FA enabled successfully",
           token := none, userId := none, requires2FA := false, error := none },
         { w1 with auditLogs := logs })

/-- `AuthController.disable2FA(req, res)`. -/
def disable2FA (a : AuthEnv) (w : World) (req : AuthReq) : AuthResponse × World :=
  match req.user with
  | none =>
    ({ status := 500, success := false, message := "Error disabling 2FA",
       token := none, userId := none, requires2FA := false, error := some undefinedUserError }, w)
  | some user =>
    let w1 := { w with users := (TwoFactorService.disable2FA w.users user._id).2 }
    match AuditLog.createAwait a.auditWritable w1.auditLogs (authAuditDoc a.env "2fa_disable" user req) with
    | Except.error e =>
      ({ status := 500, success := false, message := "Error disabling 2FA",
         token := none, userId := none, requires2FA := false, error := some e }, w1)
    | Except.ok logs =>
      ({ status := 200, success := true, message := "2FA disabled successfully",
         token := none, userId := none, requires2FA := false, error := none },
       { w1 with auditLogs := logs })

end AuthController

/-! ## controllers/auditController.js -/

/-- The query string `req.query` of `GET /api/audit/logs`: the six keys that
`getAuditLogs` reads (numbers and dates already parsed, an absent or empty value being
`none`) and the resource keys, which a client may send and the handler does not read. -/
structure AuditQuery where
  page : Option Nat
  limit : Option Nat
  action : Option String
  userId : Option ObjectId
  startDate : Option Date
  endDate : Option Date
  resourceId : Option ObjectId
  resourceType : Option String
  deriving DecidableEq, Repr

/-- The MongoDB filter object that `getAuditLogs` builds: `action`, `userId`,
`timestamp.$gte` and `timestamp.$lte`, each present or not. -/
structure AuditFilter where
  action : Option String
  userId : Option ObjectId
  gte : Option Date
  lte : Option Date
  deriving DecidableEq, Repr

/-- A response of `getAuditLogs`: the status, `success`, `data.logs` and the members of
`data.pagination`; `pages` is `none` when `Math.ceil(total / limit)` is not a finite
number (limit 0). -/
structure AuditLogsResponse where
  status : Nat
  success : Bool
  logs : List AuditLog
  page : Nat
  limit : Nat
  total : Nat
  pages : Option Nat
  error : Option String
  deriving DecidableEq, Repr

/-- Whether a document satisfies the filter object, as `AuditLog.find(filter)` and
`AuditLog.countDocuments(filter)` decide it. -/
def AuditFilter.matches (f : AuditFilter) (e : AuditLog) : Bool :=
  (match f.action with
   | none => true
   | some a => e.action == a)
  && (match f.userId with
      | none => true
      | some u => e.userId == u)
  && (match f.gte with
      | none => true
      | some t => decide (t ≤ e.timestamp))
  && (match f.lte with
      | none => true
      | some t => decide (e.timestamp ≤ t))

/-- The sort `.sort({ timestamp: -1 })`: newest first. -/
def sortByTimestampDesc (l : List AuditLog) : List AuditLog :=
  l.insertionSort (fun a b => a.timestamp ≥ b.timestamp)

namespace AuditController

/-- The filter that `getAuditLogs` builds from the query: `if (action) filter.action =
action; if (userId) filter.userId = userId;` and the two bounds of the time range. -/
def buildFilter (query : AuditQuery) : AuditFilter :=
  { action := match query.action with
      | none => none
      | some a => if a = "" then none else some a
    userId := query.userId
    gte := query.startDate
    lte := query.endDate }

/-- `AuditController.getAuditLogs(req, res)`, with `page = 1` and `limit = 20` when
absent, `skip = (page - 1) * limit` (a negative skip is refused by the store and the
`catch` answers 500) and `.limit(0)` meaning no limit. -/
def getAuditLogs (w : World) (query : AuditQuery) : AuditLogsResponse :=
  let page := query.page.getD 1
  let limit := query.limit.getD 20
  let filter := buildFilter query
  if page = 0 ∧ 0 < limit then
    { status := 500, success := false, logs := [], page := page, limit := limit, total := 0,
      pages := none, error := some "Skip value must be non-negative" }
  else
    let skip := (page - 1) * limit
    let found := (sortByTimestampDesc (w.auditLogs.filter filter.matches)).drop skip
    let logs := if limit = 0 then found else found.take limit
    let total := (w.auditLogs.filter filter.matches).length
    { status := 200, success := true, logs := logs, page := page, limit := limit, total := total,
      pages := if limit = 0 then none else some ((total + limit - 1) / limit), error := none }

end AuditController

/-! ## Further sample data -/

/-- An authentication environment over the sample environment: the audit collection is
writable and the password of every user is `correct-password`. -/
def sampleAuthEnv : AuthEnv :=
  { env := sampleEnv, auditWritable := true, comparePassword := fun _ p => p == "correct-password" }

/-- The same environment while the audit collection cannot be written. -/
def sampleAuthEnvDown : AuthEnv := { sampleAuthEnv with auditWritable := false }

/-- A registration request for a new email. -/
def sampleRegisterReq : AuthReq :=
  { email := "c@example.com", password := "correct-password", role := none, token := 0,
    ip := some "127.0.0.1", userAgent := none, user := none }

/-- A login request of user 1 with the right password. -/
def sampleLoginReq : AuthReq :=
  { email := "a@example.com", password := "correct-password", role := none, token := 0,
    ip := some "127.0.0.1", userAgent := none, user := none }

/-- User 3, locked until second 9000 after five failures. -/
def sampleLockedUser : User :=
  { _id := 3, email := "l@example.com", role := "user", isActive := true,
    twoFactorSecret := none, twoFactorEnabled := false, loginAttempts := 5,
    lockUntil := some 9000, lastLogin := none, twoFactorVerified := none }

/-- A world that holds the locked user. -/
def sampleLockedWorld : World := { sampleWorld with users := [sampleUser, sampleLockedUser] }

/-- A login request of the locked user with the right password. -/
def sampleLockedLoginReq : AuthReq := { sampleLoginReq with email := "l@example.com" }

/-- A time whose 30-second step is 59236100 (in April 2026). -/
def sampleTotpTime : Date := 1777083000

/-- The sample environment with the clock at the sample time. -/
def sampleTotpEnv : Env := { sampleEnv with now := sampleTotpTime }

/-- User 4, enrolling: a secret is stored and 2FA is not enabled yet. -/
def sampleEnrollingUser : User :=
  { _id := 4, email := "e@example.com", role := "user", isActive := true,
    twoFactorSecret := some "JBSWY3DPEHPK3PXP", twoFactorEnabled := false, loginAttempts := 0,
    lockUntil := none, lastLogin := none, twoFactorVerified := none }

/-- User 5, who never generated a secret. -/
def sampleNotEnrolledUser : User :=
  { sampleEnrollingUser with _id := 5, email := "n@example.com", twoFactorSecret := none }

/-- A world that holds the two users above. -/
def sampleEnrollWorld : World :=
  { users := [sampleEnrollingUser, sampleNotEnrolledUser], transactions := [], auditLogs := [] }

/-- A request of the enrolling user that submits the given one-time code. -/
def sampleEnableReq (token : Nat) : AuthReq :=
  { email := "", password := "", role := none, token := token, ip := some "127.0.0.1",
    userAgent := none, user := some sampleEnrollingUser }

/-- An audit event of user 1 with the given action, resource and timestamp. -/
def sampleEvent (action : String) (resourceId : Option ObjectId) (timestamp : Date) : AuditLog :=
  { action := action, userId := 1, userEmail := "a@example.com", userRole := "user",
    resourceId := resourceId, resourceType := some "Transaction", ipAddress := none,
    userAgent := none, method := "POST", url := "/api/transactions", body := none,
    timestamp := timestamp }

/-- A ledger of two events, at seconds 1 and 2, on the resources 7 and 8. -/
def sampleLedger : World :=
  { users := [sampleUser], transactions := [],
    auditLogs := [sampleEvent "transaction_create" (some 7) 1,
                  sampleEvent "transaction_create" (some 8) 2] }

/-- The ledger after one more event, at second 3, has been appended. -/
def sampleLedgerLater : World :=
  { sampleLedger with
    auditLogs := AuditLog.create sampleLedger.auditLogs (sampleEvent "login" none 3) }

/-- A query for the given page with the given limit and no filter. -/
def samplePageQuery (page limit : Nat) : AuditQuery :=
  { page := some page, limit := some limit, action := none, userId := none, startDate := none,
    endDate := none, resourceId := none, resourceType := none }

/-! ## The audit filters as the specification words them -/

/-- An event matches every filter that the query supplies among the action, the actor and
the time range: the action when a non-empty one is given, the actor when one is given, a
timestamp not before the start and not after the end (inclusive at both ends). -/
def AuditQuery.selects (q : AuditQuery) (e : AuditLog) : Bool :=
  (match q.action with
   | none => true
   | some a => a == "" || e.action == a)
  && (match q.userId with
      | none => true
      | some u => e.userId == u)
  && (match q.startDate with
      | none => true
      | some s => decide (s ≤ e.timestamp))
  && (match q.endDate with
      | none => true
      | some t => decide (e.timestamp ≤ t))

/-- An event matches the resource filter of the query: the resource id when one is given
and the resource type when one is given. -/
def AuditQuery.selectsResource (q : AuditQuery) (e : AuditLog) : Bool :=
  (match q.resourceId with
   | none => true
   | some r => e.resourceId == some r)
  && (match q.resourceType with
      | none => true
      | some t => e.resourceType == some t)

/-- The stored transaction of 6000 as `approveTransaction` by user 2 at second 5000 saves
it: approver and time recorded, status put back to pending by the hook. -/
def sampleHighValueSaved : Transaction :=
  { sampleHighValue with approvedBy := some 2, approvedAt := some 5000, updatedAt := some 5000 }

/-- The key of the test vectors of RFC 4226, appendix D: the ASCII bytes of
`12345678901234567890`. -/
def rfc4226Key : List Nat :=
  [49, 50, 51, 52, 53, 54, 55, 56, 57, 48, 49, 50, 51, 52, 53, 54, 55, 56, 57, 48]

/-! ## The persisted transaction state and its operations -/

/-- The id of a record with the fields that no operation may change: amount, owner, risk
score and `requiresApproval`. -/
def Transaction.fixedPart (t : Transaction) : ObjectId × ℚ × ObjectId × Nat × Bool :=
  (t._id, t.amount, t.userId, t.riskScore, t.requiresApproval)

/-- The invariant of the persisted state: the ids are unique (as `_id` is in the
collection), and every record above 5000 has `requiresApproval = true` and status
pending. -/
def storeInvariant (coll : List Transaction) : Prop :=
  (coll.map (fun x => x._id)).Nodup ∧
  ∀ x ∈ coll, x.amount > 5000 → x.requiresApproval = true ∧ x.status = Status.pending

/-- The operations of `TransactionService` that save a transaction, with the environment
of the call. -/
inductive StoreOp where
  | create (env : Env) (transactionData : TransactionData)
  | approve (env : Env) (transactionId approverId : ObjectId)
  | reject (env : Env) (transactionId approverId : ObjectId)

/-- The collection after one operation; an operation that throws writes nothing. -/
def StoreOp.apply (coll : List Transaction) : StoreOp → List Transaction
  | StoreOp.create env transactionData =>
    match TransactionService.createTransaction env coll transactionData with
    | Except.ok (_, coll1) => coll1
    | Except.error _ => coll
  | StoreOp.approve env transactionId approverId =>
    match TransactionService.approveTransaction env coll transactionId approverId with
    | Except.ok (_, coll1) => coll1
    | Except.error _ => coll
  | StoreOp.reject env transactionId approverId =>
    match TransactionService.rejectTransaction env coll transactionId approverId with
    | Except.ok (_, coll1) => coll1
    | Except.error _ => coll

/-- The id generator gives a new id: a create uses an id that no stored record has. -/
def StoreOp.fresh (coll : List Transaction) : StoreOp → Bool
  | StoreOp.create env _ => (Transaction.findById coll env.freshId).isNone
  | _ => true

/-- The collection after a sequence of operations. -/
def runOps : List Transaction → List StoreOp → List Transaction
  | coll, [] => coll
  | coll, op :: ops => runOps (op.apply coll) ops

/-- Every create of the sequence is given a new id. -/
def freshRun : List Transaction → List StoreOp → Bool
  | _, [] => true
  | coll, op :: ops => op.fresh coll && freshRun (op.apply coll) ops

/-- A run on the empty store: a transaction of 6000 is created with id 7 and approved by
user 2, a transaction of 800 is created with id 8 and rejected by user 2, then the first
one is rejected by user 3. -/
def sampleRun : List StoreOp :=
  [StoreOp.create { sampleEnv with freshId := 7 } (sampleData 6000),
   StoreOp.approve sampleEnv 7 2,
   StoreOp.create { sampleEnvLater with freshId := 8 } (sampleData 800),
   StoreOp.reject sampleEnvLater 8 2,
   StoreOp.reject sampleEnvLater 7 3]

/-- A stored transaction of 9000, pending and requiring approval, with id 11. -/
def samplePendingLarge : Transaction :=
  { sampleHighValue with
    _id := 11
    amount := 9000 }

/-- A store with two records besides the pending one of 6000. -/
def sampleStore : List Transaction := [sampleResolved, sampleHighValue, samplePendingLarge]

/-! ## Lemmas on the store and on sending -/

theorem findById_id {coll : List Transaction} {id : ObjectId} {t : Transaction}
    (h : Transaction.findById coll id = some t) : t._id = id := by
  unfold Transaction.findById at h
  have := List.find?_some h
  simpa using this

theorem findById_persist (coll : List Transaction) (t : Transaction) :
    Transaction.findById (Transaction.persist coll t) t._id = some t := by
  unfold Transaction.persist Transaction.findById
  by_cases hany : coll.any (fun x => x._id == t._id) = true
  · rw [if_pos hany]
    induction coll with
    | nil => simp at hany
    | cons x xs ih =>
      by_cases hx : x._id = t._id
      · simp [List.map_cons, List.find?_cons, hx]
      · have hxs : xs.any (fun x => x._id == t._id) = true := by
          simpa [hx] using hany
        have hb : (x._id == t._id) = false := by simpa using hx
        rw [List.map_cons, if_neg (by simp [hb]), List.find?_cons, hb]
        exact ih hxs
  · rw [if_neg hany]
    have hnone : coll.find? (fun x => x._id == t._id) = none := by
      rw [List.find?_eq_none]
      intro x hx hxt
      exact hany (List.any_eq_true.mpr ⟨x, hx, hxt⟩)
    simp [List.find?_append, hnone]

theorem send_of_not_success (env : Env) (req : Req) (r : Response) (w : World)
    (h : r.success = false) : send env req r w = (r, w) := by
  unfold send
  have key : ∀ (l : List AuditWrapper) (acc : World),
      l.foldl (fun acc wr => wr.onSend env req r acc) acc = acc := by
    intro l
    induction l with
    | nil => intro acc; rfl
    | cons wr l ih =>
      intro acc
      simp only [List.foldl_cons]
      rw [show wr.onSend env req r acc = acc by simp [AuditWrapper.onSend, h]]
      exact ih acc
  rw [key]

theorem preSave_fields (t : Transaction) :
    t.preSave._id = t._id ∧ t.preSave.userId = t.userId ∧ t.preSave.amount = t.amount ∧
    t.preSave.type = t.type ∧ t.preSave.fromAccount = t.fromAccount ∧
    t.preSave.toAccount = t.toAccount ∧ t.preSave.description = t.description ∧
    t.preSave.riskScore = t.riskScore ∧ t.preSave.approvedBy = t.approvedBy ∧
    t.preSave.approvedAt = t.approvedAt ∧
    t.preSave.status = (if t.amount > 5000 then Status.pending else t.status) ∧
    t.preSave.requiresApproval = (if t.amount > 5000 then true else t.requiresApproval) := by
  unfold Transaction.preSave
  split <;> simp

/-- A valid document is saved: the hook runs, the timestamps are set, and the document is
then found under its id, with the fields the hook does not touch unchanged. -/
theorem save_valid (env : Env) (coll : List Transaction) (t : Transaction)
    (hv : t.validate = true) :
    ∃ t1 coll1, Transaction.save env coll t = Except.ok (t1, coll1) ∧
      Transaction.findById coll1 t._id = some t1 ∧
      t1._id = t._id ∧ t1.userId = t.userId ∧ t1.amount = t.amount ∧
      t1.riskScore = t.riskScore ∧
      t1.approvedBy = t.approvedBy ∧ t1.approvedAt = t.approvedAt ∧
      t1.status = (if t.amount > 5000 then Status.pending else t.status) ∧
      t1.requiresApproval = (if t.amount > 5000 then true else t.requiresApproval) ∧
      t1.validate = true := by
  obtain ⟨h1, h2, h3, h4, h5, h6, h7, h8, h9, h10, h11, h12⟩ := preSave_fields t
  have hsave : ∃ t2 : Transaction,
      t2 = { t.preSave with createdAt := some (t.preSave.createdAt.getD env.now),
                            updatedAt := some env.now } ∧
      Transaction.save env coll t = Except.ok (t2, Transaction.persist coll t2) :=
    ⟨_, rfl, by simp [Transaction.save, hv]⟩
  obtain ⟨t2, ht2, hs⟩ := hsave
  have hid : t2._id = t._id := by rw [ht2]; exact h1
  refine ⟨t2, Transaction.persist coll t2, hs, ?_, hid, ?_, ?_, ?_, ?_, ?_, ?_, ?_, ?_⟩
  · rw [← hid]; exact findById_persist coll t2
  · rw [ht2]; exact h2
  · rw [ht2]; exact h3
  · rw [ht2]; exact h8
  · rw [ht2]; exact h9
  · rw [ht2]; exact h10
  · rw [ht2]; exact h11
  · rw [ht2]; exact h12
  · rw [ht2]
    simpa [Transaction.validate, h3, h4, h5, h6, h7, h8] using hv

/-- What `approveTransaction` does on a stored, schema-valid, pending transaction. -/
theorem approveTransaction_pending (env : Env) (coll : List Transaction)
    (id approverId : ObjectId) (t : Transaction)
    (hfind : Transaction.findById coll id = some t) (hst : t.status = Status.pending)
    (hv : t.validate = true) :
    ∃ t1 coll1, TransactionService.approveTransaction env coll id approverId = Except.ok (t1, coll1) ∧
      Transaction.findById coll1 id = some t1 ∧
      t1.amount = t.amount ∧ t1.approvedBy = some approverId ∧ t1.approvedAt = some env.now ∧
      t1.status = (if t.amount > 5000 then Status.pending else Status.approved) ∧
      t1.validate = true := by
  have hid := findById_id hfind
  obtain ⟨t1, coll1, hs, hf, h1, _, h3, _, h5, h6, h7, _, h9⟩ :=
    save_valid env coll { t with status := Status.approved, approvedBy := some approverId,
                                 approvedAt := some env.now }
      (by simpa [Transaction.validate] using hv)
  refine ⟨t1, coll1, ?_, ?_, h3, h5, h6, h7, h9⟩
  · simp only [TransactionService.approveTransaction, hfind, hst]
    simpa using hs
  · simpa [hid] using hf

/-- What `rejectTransaction` does on a stored, schema-valid, pending transaction. -/
theorem rejectTransaction_pending (env : Env) (coll : List Transaction)
    (id approverId : ObjectId) (t : Transaction)
    (hfind : Transaction.findById coll id = some t) (hst : t.status = Status.pending)
    (hv : t.validate = true) :
    ∃ t1 coll1, TransactionService.rejectTransaction env coll id approverId = Except.ok (t1, coll1) ∧
      Transaction.findById coll1 id = some t1 ∧
      t1.amount = t.amount ∧ t1.approvedBy = some approverId ∧ t1.approvedAt = some env.now ∧
      t1.status = (if t.amount > 5000 then Status.pending else Status.rejected) ∧
      t1.validate = true := by
  have hid := findById_id hfind
  obtain ⟨t1, coll1, hs, hf, h1, _, h3, _, h5, h6, h7, _, h9⟩ :=
    save_valid env coll { t with status := Status.rejected, approvedBy := some approverId,
                                 approvedAt := some env.now }
      (by simpa [Transaction.validate] using hv)
  refine ⟨t1, coll1, ?_, ?_, h3, h5, h6, h7, h9⟩
  · simp only [TransactionService.rejectTransaction, hfind, hst]
    simpa using hs
  · simpa [hid] using hf

/-- On a stored, schema-valid, pending transaction of at most 5000 the resolution is
recorded as the service writes it: approved, by the approver, at the current time. -/
theorem approveTransaction_at_most_threshold (env : Env) (coll : List Transaction)
    (id approverId : ObjectId) (t : Transaction)
    (hfind : Transaction.findById coll id = some t) (hst : t.status = Status.pending)
    (hv : t.validate = true) (hamt : t.amount ≤ 5000) :
    ∃ t1 coll1, TransactionService.approveTransaction env coll id approverId = Except.ok (t1, coll1) ∧
      Transaction.findById coll1 id = some t1 ∧ t1.status = Status.approved ∧
      t1.approvedBy = some approverId ∧ t1.approvedAt = some env.now := by
  obtain ⟨t1, coll1, h1, h2, _, h4, h5, h6, _⟩ :=
    approveTransaction_pending env coll id approverId t hfind hst hv
  exact ⟨t1, coll1, h1, h2, by rw [h6, if_neg (not_lt.mpr hamt)], h4, h5⟩

theorem transactionSchemaError_none {body : Body} (h : transactionSchemaError body = none) :
    0 < body.amount ∧ transactionTypes.contains body.type = true ∧
    5 ≤ body.fromAccount.length ∧ 5 ≤ body.toAccount.length ∧
    (∀ d, body.description = some d → d.length ≤ 500) := by
  unfold transactionSchemaError at h
  split_ifs at h with h1 h2 h3 h4 h5 h6
  refine ⟨h1, by simpa using h3, by omega, by omega, ?_⟩
  intro d hd
  rw [hd] at h6
  simp at h6
  omega

theorem length_pos_ne_empty {s : String} (h : 5 ≤ s.length) : (s != "") = true := by
  have : s ≠ "" := by
    intro hs
    rw [hs] at h
    simp at h
  simpa using this

theorem calculateRiskScore_le (d : TransactionData) (h : Nat) :
    TransactionService.calculateRiskScore d h ≤ 100 := by
  unfold TransactionService.calculateRiskScore
  exact Nat.min_le_right _ _

theorem send_fst (env : Env) (req : Req) (r : Response) (w : World) :
    (send env req r w).1 = r := rfl

theorem send_transactions (env : Env) (req : Req) (r : Response) (w : World) :
    (send env req r w).2.transactions = w.transactions ∧ (send env req r w).2.users = w.users := by
  unfold send
  have key : ∀ (l : List AuditWrapper) (acc : World),
      (l.foldl (fun acc wr => wr.onSend env req r acc) acc).transactions = acc.transactions ∧
      (l.foldl (fun acc wr => wr.onSend env req r acc) acc).users = acc.users := by
    intro l
    induction l with
    | nil => intro acc; exact ⟨rfl, rfl⟩
    | cons wr l ih =>
      intro acc
      simp only [List.foldl_cons]
      have h1 : (wr.onSend env req r acc).transactions = acc.transactions ∧
          (wr.onSend env req r acc).users = acc.users := by
        unfold AuditWrapper.onSend
        split
        · split <;> exact ⟨rfl, rfl⟩
        · exact ⟨rfl, rfl⟩
      rw [← h1.1, ← h1.2]
      exact ih _
  exact key _ _

/-- A request that passes the Joi schema and the 2FA test is created: the controller
answers 201 with the new record, which is stored under the fresh id with status pending
(the schema default) and `requiresApproval` set exactly when the amount is above 5000. -/
theorem createTransaction_created (env : Env) (w : World) (req : Req) (user : User) (body : Body)
    (hu : req.user = some user) (hb : req.body = some body)
    (hjoi : transactionSchemaError body = none)
    (hgate : body.amount ≤ 1000 ∨ user.twoFactorVerified = some true) :
    ∃ t, (TransactionController.createTransaction env w req).1 =
        { status := 201, success := true, message := "Transaction created successfully",
          data := some (Payload.transaction t), error := none } ∧
      Transaction.findById (TransactionController.createTransaction env w req).2.transactions
        env.freshId = some t ∧
      (∃ coll1, TransactionService.createTransaction env w.transactions
        { amount := body.amount, currency := body.currency, type := body.type,
          fromAccount := body.fromAccount, toAccount := body.toAccount,
          description := body.description, userId := user._id, ipAddress := req.ip,
          userAgent := req.userAgent } = Except.ok (t, coll1)) ∧
      t._id = env.freshId ∧ t.userId = user._id ∧ t.amount = body.amount ∧
      t.status = Status.pending ∧ t.requiresApproval = decide (body.amount > 5000) := by
  obtain ⟨hpos, hty, hfrom, hto, hdesc⟩ := transactionSchemaError_none hjoi
  have hdata : ∃ data : TransactionData, data =
      { amount := body.amount, currency := body.currency, type := body.type,
        fromAccount := body.fromAccount, toAccount := body.toAccount,
        description := body.description, userId := user._id, ipAddress := req.ip,
        userAgent := req.userAgent } := ⟨_, rfl⟩
  obtain ⟨data, hdata⟩ := hdata
  have hnew : ∃ t0 : Transaction, t0 =
      { Transaction.new env data with
        riskScore := TransactionService.calculateRiskScore data env.hour } := ⟨_, rfl⟩
  obtain ⟨t0, ht0⟩ := hnew
  have hv : t0.validate = true := by
    have hrisk := calculateRiskScore_le data env.hour
    have h1 := length_pos_ne_empty hfrom
    have h2 := length_pos_ne_empty hto
    rw [ht0, hdata]
    rw [hdata] at hrisk
    simp only [Transaction.validate, Transaction.new, hty, h1, h2, Bool.and_true, Bool.true_and,
      Bool.and_eq_true, decide_eq_true_eq]
    refine ⟨⟨le_of_lt hpos, ?_⟩, hrisk⟩
    cases hd : body.description with
    | none => rfl
    | some d => simpa using hdesc d hd
  obtain ⟨t1, coll1, hs, hf, h1, h2, h3, _, _, _, h7, h8, _⟩ := save_valid env w.transactions t0 hv
  have hsvc : TransactionService.createTransaction env w.transactions data = Except.ok (t1, coll1) := by
    rw [← hs, ht0]; rfl
  have hgate2 : (decide (body.amount > 1000) && !(user.twoFactorVerified.getD false)) = false := by
    rcases hgate with h | h
    · simp [not_lt.mpr h]
    · simp [h]
  have hctrl : TransactionController.createTransaction env w req =
      send env req { status := 201, success := true, message := "Transaction created successfully",
                     data := some (Payload.transaction t1), error := none }
        { w with transactions := coll1 } := by
    simp only [TransactionController.createTransaction, hu, hb, hgate2]
    rw [← hdata, hsvc]
    rfl
  refine ⟨t1, ?_, ?_, ⟨coll1, by rw [← hdata]; exact hsvc⟩, ?_, ?_, ?_, ?_, ?_⟩
  · rw [hctrl]; rfl
  · rw [hctrl, (send_transactions _ _ _ _).1]
    have : t0._id = env.freshId := by rw [ht0]; rfl
    rw [← this]; exact hf
  · rw [h1, ht0]; rfl
  · rw [h2, ht0, hdata]; rfl
  · rw [h3, ht0, hdata]; rfl
  · rw [h7, ht0]; simp [Transaction.new]
  · rw [h8, ht0, hdata]
    simp [Transaction.new]

/-- With an amount above 1000 and no true step-up flag on `req.user`, the create
controller answers 403 and leaves the state as it is. -/
theorem createTransaction_forbidden (env : Env) (w : World) (req : Req) (user : User)
    (body : Body) (hu : req.user = some user) (hb : req.body = some body)
    (hamt : body.amount > 1000) (hflag : user.twoFactorVerified ≠ some true) :
    TransactionController.createTransaction env w req =
      ({ status := 403, success := false,
         message := "2FA verification required for high-value transactions",
         data := none, error := none }, w) := by
  have hgate : (decide (body.amount > 1000) && !(user.twoFactorVerified.getD false)) = true := by
    have h1 : user.twoFactorVerified.getD false = false := by
      cases hf : user.twoFactorVerified with
      | none => rfl
      | some b =>
        cases b with
        | false => rfl
        | true => exact absurd hf hflag
    simp [hamt, h1]
  simp only [TransactionController.createTransaction, hu, hb, hgate, if_true]
  exact send_of_not_success env req _ w rfl

/-- What `authenticate` does: it answers with a failure, or it passes the request on with
`req.user` set to a stored user and nothing else changed. -/
theorem authenticate_cases (env : Env) (w : World) (req : Req) :
    (∃ r, authenticate env w req = Step.respond r ∧ r.success = false) ∨
    (∃ user, authenticate env w req = Step.next { req with user := some user }) := by
  unfold authenticate
  split
  · exact Or.inl ⟨_, rfl, rfl⟩
  · split
    · exact Or.inl ⟨_, rfl, rfl⟩
    · split
      · exact Or.inl ⟨_, rfl, rfl⟩
      · split
        · exact Or.inl ⟨_, rfl, rfl⟩
        · split
          · exact Or.inl ⟨_, rfl, rfl⟩
          · exact Or.inr ⟨_, rfl⟩

/-- What `authorize` does on a request whose `req.user` is set. -/
theorem authorize_of_user (roles : List String) (req : Req) (user : User)
    (hu : req.user = some user) :
    authorize roles req =
      if roles.contains user.role then Step.next req else Step.respond insufficientPermissions := by
  unfold authorize
  rw [hu]
  by_cases h : roles.contains user.role = true
  · simp [h]
  · simp [h]

theorem approveTransaction_controller_not_pending (env : Env) (w : World) (req : Req)
    (user : User) (id : ObjectId) (t : Transaction)
    (hu : req.user = some user) (hp : req.params.transactionId = some id)
    (hfind : Transaction.findById w.transactions id = some t) (hst : t.status ≠ Status.pending) :
    TransactionController.approveTransaction env w req =
      ({ status := 400, success := false, message := "Transaction cannot be approved",
         data := none, error := none }, w) := by
  have hsvc : TransactionService.approveTransaction env w.transactions id user._id =
      Except.error "Transaction cannot be approved" := by
    simp [TransactionService.approveTransaction, hfind, hst]
  simp only [TransactionController.approveTransaction, hu, hp, hsvc]
  exact send_of_not_success env req _ w rfl

theorem rejectTransaction_controller_not_pending (env : Env) (w : World) (req : Req)
    (user : User) (id : ObjectId) (t : Transaction)
    (hu : req.user = some user) (hp : req.params.transactionId = some id)
    (hfind : Transaction.findById w.transactions id = some t) (hst : t.status ≠ Status.pending) :
    TransactionController.rejectTransaction env w req =
      ({ status := 400, success := false, message := "Transaction cannot be rejected",
         data := none, error := none }, w) := by
  have hsvc : TransactionService.rejectTransaction env w.transactions id user._id =
      Except.error "Transaction cannot be rejected" := by
    simp [TransactionService.rejectTransaction, hfind, hst]
  simp only [TransactionController.rejectTransaction, hu, hp, hsvc]
  exact send_of_not_success env req _ w rfl

/-- A route made of `authenticate`, `authorize(...roles)` and `audit(action, type)` in
front of a handler: either a middleware answers with a failure and the state is
unchanged, or the handler runs on the request with `req.user` set to a user whose role is
in `roles` and the audit wrapper installed. -/
theorem serve_guarded (env : Env) (w : World) (roles : List String) (action : String)
    (resourceType : Option String) (handler : Env → World → Req → Response × World) (req : Req) :
    (∃ r, serve env w [Middleware.authenticate, Middleware.authorize roles,
        Middleware.audit action resourceType] handler req = (r, w) ∧ r.success = false) ∨
    (∃ user, roles.contains user.role = true ∧
      serve env w [Middleware.authenticate, Middleware.authorize roles,
        Middleware.audit action resourceType] handler req =
      handler env w { req with
        user := some user
        sendWrappers := AuditWrapper.mk action resourceType :: req.sendWrappers }) := by
  rcases authenticate_cases env w req with ⟨r, hr, hs⟩ | ⟨user, hn⟩
  · left
    refine ⟨r, ?_, hs⟩
    simp only [serve, runChain, Middleware.run, hr]
    exact send_of_not_success env req r w hs
  · have hauthz := authorize_of_user roles { req with user := some user } user rfl
    by_cases hrole : roles.contains user.role = true
    · right
      refine ⟨user, hrole, ?_⟩
      rw [if_pos hrole] at hauthz
      simp only [serve, runChain, Middleware.run, hn, hauthz, audit]
    · left
      refine ⟨insufficientPermissions, ?_, rfl⟩
      rw [if_neg hrole] at hauthz
      simp only [serve, runChain, Middleware.run, hn, hauthz]
      exact send_of_not_success env _ _ w rfl

/-- A chain that starts with `authenticate` and `authorize(...roles)`, followed by nothing
or by one `audit`, reaches the handler only with `req.user` set to a user whose role is in
`roles`. -/
theorem runChain_guarded (env : Env) (w : World) (roles : List String)
    (rest : List Middleware) (req req1 : Req)
    (hrest : rest = [] ∨ ∃ a r, rest = [Middleware.audit a r])
    (h : runChain env w (Middleware.authenticate :: Middleware.authorize roles :: rest) req =
      Outcome.reached req1) :
    ∃ user, req1.user = some user ∧ roles.contains user.role = true := by
  rcases authenticate_cases env w req with ⟨r, hr, _⟩ | ⟨user, hn⟩
  · simp [runChain, Middleware.run, hr] at h
  · have hauthz := authorize_of_user roles { req with user := some user } user rfl
    by_cases hrole : roles.contains user.role = true
    · rw [if_pos hrole] at hauthz
      refine ⟨user, ?_, hrole⟩
      rcases hrest with hnil | ⟨a, r, hone⟩
      · subst hnil
        simp only [runChain, Middleware.run, hn, hauthz, Outcome.reached.injEq] at h
        rw [← h]
      · subst hone
        simp only [runChain, Middleware.run, hn, hauthz, audit, Outcome.reached.injEq] at h
        rw [← h]
    · rw [if_neg hrole] at hauthz
      simp [runChain, Middleware.run, hn, hauthz] at h

theorem getTransactionById_missing_import (env : Env) (w : World) (req : Req) :
    TransactionController.getTransactionById env w req =
      ({ status := 500, success := false, message := "Error fetching transaction",
         data := none, error := some "Transaction is not defined" }, w) := by
  have hbody : TransactionController.getTransactionByIdBody TransactionController.moduleScope w req =
      Except.error "Transaction is not defined" := by
    have hres : TransactionController.resolve TransactionController.moduleScope "Transaction" =
        Except.error "Transaction is not defined" := by
      unfold TransactionController.resolve
      rw [if_neg (by decide)]
      rfl
    unfold TransactionController.getTransactionByIdBody
    rw [hres]
    rfl
  unfold TransactionController.getTransactionById TransactionController.getTransactionByIdIn
  rw [hbody]
  exact send_of_not_success env req _ w rfl

/-- With the identifier `Transaction` bound in the module, `getTransactionById` gives the
stored transaction to an admin, an approver or its owner, and 403 to another plain user. -/
theorem getTransactionById_with_model_bound (scope : List String) (w : World) (req : Req)
    (user owner : User) (id : ObjectId) (t : Transaction)
    (hscope : scope.contains "Transaction" = true)
    (hu : req.user = some user) (hp : req.params.transactionId = some id)
    (hfind : Transaction.findById w.transactions id = some t)
    (hown : User.findById w.users t.userId = some owner) :
    TransactionController.getTransactionByIdBody scope w req =
      Except.ok (if user.role = "user" ∧ owner._id ≠ user._id then
        { status := 403, success := false, message := "Access denied to this transaction",
          data := none, error := none }
      else
        { status := 200, success := true, message := "",
          data := some (Payload.transaction t), error := none }) := by
  have hres : TransactionController.resolve scope "Transaction" = Except.ok () := by
    unfold TransactionController.resolve
    rw [if_pos hscope]
  unfold TransactionController.getTransactionByIdBody
  rw [hres]
  simp only [hp, hfind, hu, hown]
  by_cases hr : user.role = "user"
  · by_cases ho : owner._id = user._id
    · simp [hr, ho]
    · simp [hr, ho]
  · simp [hr]

/-! ## The claims -/

/-- C1 (defect in the code): on a stored, schema-valid, pending transaction whose amount
is above 5000, `approveTransaction` and `rejectTransaction` both succeed and record the
approver and the time, but the pre-save hook puts the status back: the saved and returned
record has status pending, not approved and not rejected. -/
theorem resolve_over_threshold_stays_pending (env : Env) (coll : List Transaction)
    (id approverId : ObjectId) (t : Transaction)
    (hfind : Transaction.findById coll id = some t) (hst : t.status = Status.pending)
    (hv : t.validate = true) (hamt : t.amount > 5000) :
    (∃ t1 coll1,
      TransactionService.approveTransaction env coll id approverId = Except.ok (t1, coll1) ∧
      Transaction.findById coll1 id = some t1 ∧ t1.status = Status.pending ∧
      t1.approvedBy = some approverId ∧ t1.approvedAt = some env.now) ∧
    (∃ t1 coll1,
      TransactionService.rejectTransaction env coll id approverId = Except.ok (t1, coll1) ∧
      Transaction.findById coll1 id = some t1 ∧ t1.status = Status.pending ∧
      t1.approvedBy = some approverId ∧ t1.approvedAt = some env.now) := by
  constructor
  · obtain ⟨t1, coll1, h1, h2, _, h4, h5, h6, _⟩ :=
      approveTransaction_pending env coll id approverId t hfind hst hv
    exact ⟨t1, coll1, h1, h2, by rw [h6, if_pos hamt], h4, h5⟩
  · obtain ⟨t1, coll1, h1, h2, _, h4, h5, h6, _⟩ :=
      rejectTransaction_pending env coll id approverId t hfind hst hv
    exact ⟨t1, coll1, h1, h2, by rw [h6, if_pos hamt], h4, h5⟩

/-- C1, at the stored transaction of 6000 resolved by approver 2. -/
theorem resolve_over_threshold_stays_pending_witness :
    (∃ t1 coll1,
      TransactionService.approveTransaction sampleEnv [sampleHighValue] 7 2 = Except.ok (t1, coll1) ∧
      Transaction.findById coll1 7 = some t1 ∧ t1.status = Status.pending ∧
      t1.approvedBy = some 2 ∧ t1.approvedAt = some sampleEnv.now) ∧
    (∃ t1 coll1,
      TransactionService.rejectTransaction sampleEnv [sampleHighValue] 7 2 = Except.ok (t1, coll1) ∧
      Transaction.findById coll1 7 = some t1 ∧ t1.status = Status.pending ∧
      t1.approvedBy = some 2 ∧ t1.approvedAt = some sampleEnv.now) :=
  resolve_over_threshold_stays_pending sampleEnv [sampleHighValue] 7 2 sampleHighValue
    (by decide) (by decide) (by decide) (by decide)

/-- C2 (defect in the code): on a stored, schema-valid, pending transaction whose amount
is above 5000, a first `approveTransaction` succeeds, and so does a second resolve call
(approve or reject) by any actor at any later time: no conflict error is raised, and the
second call overwrites `approvedBy` and `approvedAt`. -/
theorem second_resolve_over_threshold_succeeds (env env2 : Env) (coll : List Transaction)
    (id approverId approverId2 : ObjectId) (t : Transaction)
    (hfind : Transaction.findById coll id = some t) (hst : t.status = Status.pending)
    (hv : t.validate = true) (hamt : t.amount > 5000) :
    ∃ t1 coll1,
      TransactionService.approveTransaction env coll id approverId = Except.ok (t1, coll1) ∧
      (∃ t2 coll2,
        TransactionService.approveTransaction env2 coll1 id approverId2 = Except.ok (t2, coll2) ∧
        Transaction.findById coll2 id = some t2 ∧
        t2.approvedBy = some approverId2 ∧ t2.approvedAt = some env2.now) ∧
      (∃ t2 coll2,
        TransactionService.rejectTransaction env2 coll1 id approverId2 = Except.ok (t2, coll2) ∧
        Transaction.findById coll2 id = some t2 ∧
        t2.approvedBy = some approverId2 ∧ t2.approvedAt = some env2.now) := by
  obtain ⟨t1, coll1, h1, h2, h3, _, _, h6, h7⟩ :=
    approveTransaction_pending env coll id approverId t hfind hst hv
  have hst1 : t1.status = Status.pending := by rw [h6, if_pos hamt]
  refine ⟨t1, coll1, h1, ?_, ?_⟩
  · obtain ⟨t2, coll2, k1, k2, _, k4, k5, _, _⟩ :=
      approveTransaction_pending env2 coll1 id approverId2 t1 h2 hst1 h7
    exact ⟨t2, coll2, k1, k2, k4, k5⟩
  · obtain ⟨t2, coll2, k1, k2, _, k4, k5, _, _⟩ :=
      rejectTransaction_pending env2 coll1 id approverId2 t1 h2 hst1 h7
    exact ⟨t2, coll2, k1, k2, k4, k5⟩

/-- C2, at the stored transaction of 6000: approved by approver 2, then resolved again by
actor 3 one minute later. -/
theorem second_resolve_over_threshold_succeeds_witness :
    ∃ t1 coll1,
      TransactionService.approveTransaction sampleEnv [sampleHighValue] 7 2 = Except.ok (t1, coll1) ∧
      (∃ t2 coll2,
        TransactionService.approveTransaction sampleEnvLater coll1 7 3 = Except.ok (t2, coll2) ∧
        Transaction.findById coll2 7 = some t2 ∧
        t2.approvedBy = some 3 ∧ t2.approvedAt = some sampleEnvLater.now) ∧
      (∃ t2 coll2,
        TransactionService.rejectTransaction sampleEnvLater coll1 7 3 = Except.ok (t2, coll2) ∧
        Transaction.findById coll2 7 = some t2 ∧
        t2.approvedBy = some 3 ∧ t2.approvedAt = some sampleEnvLater.now) :=
  second_resolve_over_threshold_succeeds sampleEnv sampleEnvLater [sampleHighValue] 7 2 3
    sampleHighValue (by decide) (by decide) (by decide) (by decide)

/-- C3 (the claim fails): a transaction of 800 created through the route
`POST /api/transactions` is stored with `requiresApproval = false` and status pending,
the schema default; it is not completed. -/
theorem create_800_is_pending_not_completed :
    (Transaction.findById
        (postTransaction sampleEnv sampleWorld
          (sampleReq (some sampleFullToken) (some (sampleBody 800)) none)).2.transactions 8).map
      (fun t => (t.amount, t.requiresApproval, t.status)) = some (800, false, Status.pending) ∧
    ¬ ∃ t, Transaction.findById
        (postTransaction sampleEnv sampleWorld
          (sampleReq (some sampleFullToken) (some (sampleBody 800)) none)).2.transactions 8 = some t ∧
      t.requiresApproval = false ∧ t.status = Status.completed := by
  constructor
  · decide
  · rintro ⟨t, ht, _, hst⟩
    have h : (Transaction.findById
        (postTransaction sampleEnv sampleWorld
          (sampleReq (some sampleFullToken) (some (sampleBody 800)) none)).2.transactions 8).map
        (fun t => t.status) = some Status.pending := by decide
    rw [ht] at h
    simp only [Option.map_some', Option.some.injEq] at h
    rw [hst] at h
    exact absurd h (by decide)

/-- C3 (amended): a request that passes the Joi schema and the 2FA test (amount at most
1000, or the step-up flag set) with amount at most 5000 is created by
`TransactionController.createTransaction`: the answer is 201 with the record, and the
record stored under the new id has `requiresApproval = false` and status pending. -/
theorem create_at_most_threshold (env : Env) (w : World) (req : Req) (user : User) (body : Body)
    (hu : req.user = some user) (hb : req.body = some body)
    (hjoi : transactionSchemaError body = none)
    (hgate : body.amount ≤ 1000 ∨ user.twoFactorVerified = some true)
    (hamt : body.amount ≤ 5000) :
    ∃ t, (TransactionController.createTransaction env w req).1 =
        { status := 201, success := true, message := "Transaction created successfully",
          data := some (Payload.transaction t), error := none } ∧
      Transaction.findById (TransactionController.createTransaction env w req).2.transactions
        env.freshId = some t ∧
      t.amount = body.amount ∧ t.requiresApproval = false ∧ t.status = Status.pending := by
  obtain ⟨t, h1, h2, _, _, _, h5, h6, h7⟩ :=
    createTransaction_created env w req user body hu hb hjoi hgate
  refine ⟨t, h1, h2, h5, ?_, h6⟩
  rw [h7]
  exact decide_eq_false (not_lt.mpr hamt)

/-- C3 (amended), at amount 800 for user 1. -/
theorem create_at_most_threshold_witness :
    ∃ t, (TransactionController.createTransaction sampleEnv sampleWorld
          (sampleCreateReq sampleUser 800)).1 =
        { status := 201, success := true, message := "Transaction created successfully",
          data := some (Payload.transaction t), error := none } ∧
      Transaction.findById (TransactionController.createTransaction sampleEnv sampleWorld
          (sampleCreateReq sampleUser 800)).2.transactions sampleEnv.freshId = some t ∧
      t.amount = (sampleBody 800).amount ∧ t.requiresApproval = false ∧
      t.status = Status.pending :=
  create_at_most_threshold sampleEnv sampleWorld (sampleCreateReq sampleUser 800) sampleUser
    (sampleBody 800) rfl rfl (by decide) (Or.inl (by decide)) (by decide)

/-- C4: a request that passes the Joi schema, from a caller whose step-up flag is set, is
created by `TransactionController.createTransaction` through
`TransactionService.createTransaction`: the record stored under the new id has status
pending, and `requiresApproval` is true exactly when the amount is above 5000 (so it is
true for 6000 and false for exactly 5000). -/
theorem create_requires_approval_above_threshold (env : Env) (w : World) (req : Req)
    (user : User) (body : Body)
    (hu : req.user = some user) (hb : req.body = some body)
    (hjoi : transactionSchemaError body = none)
    (hflag : user.twoFactorVerified = some true) :
    ∃ t, (TransactionController.createTransaction env w req).1 =
        { status := 201, success := true, message := "Transaction created successfully",
          data := some (Payload.transaction t), error := none } ∧
      Transaction.findById (TransactionController.createTransaction env w req).2.transactions
        env.freshId = some t ∧
      (∃ coll1, TransactionService.createTransaction env w.transactions
        { amount := body.amount, currency := body.currency, type := body.type,
          fromAccount := body.fromAccount, toAccount := body.toAccount,
          description := body.description, userId := user._id, ipAddress := req.ip,
          userAgent := req.userAgent } = Except.ok (t, coll1)) ∧
      t.amount = body.amount ∧ t.status = Status.pending ∧
      (t.requiresApproval = true ↔ body.amount > 5000) := by
  obtain ⟨t, h1, h2, h3, _, _, h5, h6, h7⟩ :=
    createTransaction_created env w req user body hu hb hjoi (Or.inr hflag)
  refine ⟨t, h1, h2, h3, h5, h6, ?_⟩
  rw [h7]
  exact decide_eq_true_iff

/-- C4, at amount 6000 (approval required) and at amount exactly 5000 (not required). -/
theorem create_requires_approval_above_threshold_witness :
    (∃ t, Transaction.findById (TransactionController.createTransaction sampleEnv sampleWorld
          (sampleCreateReq sampleVerifiedUser 6000)).2.transactions sampleEnv.freshId = some t ∧
      t.status = Status.pending ∧ t.requiresApproval = true) ∧
    (∃ t, Transaction.findById (TransactionController.createTransaction sampleEnv sampleWorld
          (sampleCreateReq sampleVerifiedUser 5000)).2.transactions sampleEnv.freshId = some t ∧
      t.status = Status.pending ∧ t.requiresApproval = false) := by
  constructor
  · obtain ⟨t, _, h2, _, h4, h5, h6⟩ :=
      create_requires_approval_above_threshold sampleEnv sampleWorld
        (sampleCreateReq sampleVerifiedUser 6000) sampleVerifiedUser (sampleBody 6000)
        rfl rfl (by decide) rfl
    exact ⟨t, h2, h5, h6.mpr (by decide)⟩
  · obtain ⟨t, _, h2, _, h4, h5, h6⟩ :=
      create_requires_approval_above_threshold sampleEnv sampleWorld
        (sampleCreateReq sampleVerifiedUser 5000) sampleVerifiedUser (sampleBody 5000)
        rfl rfl (by decide) rfl
    refine ⟨t, h2, h5, ?_⟩
    cases hr : t.requiresApproval with
    | false => rfl
    | true => exact absurd (h6.mp hr) (by decide)

/-- C5: for every request with amount above 1000 from a caller whose step-up flag is false
or absent, `TransactionController.createTransaction` answers 403
('2FA verification required for high-value transactions') and the state is unchanged: no
record is created and no audit event is written. And for every request with amount exactly
1000 that passes the Joi schema, whatever the flag, the controller answers 201 with the
created record. -/
theorem create_gated_without_step_up :
    (∀ (env : Env) (w : World) (req : Req) (user : User) (body : Body),
      req.user = some user → req.body = some body → body.amount > 1000 →
      user.twoFactorVerified ≠ some true →
      TransactionController.createTransaction env w req =
        ({ status := 403, success := false,
           message := "2FA verification required for high-value transactions",
           data := none, error := none }, w)) ∧
    (∀ (env : Env) (w : World) (req : Req) (user : User) (body : Body),
      req.user = some user → req.body = some body → body.amount = 1000 →
      transactionSchemaError body = none →
      ∃ t, (TransactionController.createTransaction env w req).1 =
          { status := 201, success := true, message := "Transaction created successfully",
            data := some (Payload.transaction t), error := none } ∧
        Transaction.findById (TransactionController.createTransaction env w req).2.transactions
          env.freshId = some t) := by
  constructor
  · intro env w req user body hu hb hamt hflag
    exact createTransaction_forbidden env w req user body hu hb hamt hflag
  · intro env w req user body hu hb hamt hjoi
    obtain ⟨t, h1, h2, _⟩ :=
      createTransaction_created env w req user body hu hb hjoi (Or.inl (le_of_eq hamt))
    exact ⟨t, h1, h2⟩

/-- C5, at amount 1500 and at amount 1000 for user 1, whose document has no step-up flag. -/
theorem create_gated_without_step_up_witness :
    TransactionController.createTransaction sampleEnv sampleWorld (sampleCreateReq sampleUser 1500) =
      ({ status := 403, success := false,
         message := "2FA verification required for high-value transactions",
         data := none, error := none }, sampleWorld) ∧
    (∃ t, (TransactionController.createTransaction sampleEnv sampleWorld
          (sampleCreateReq sampleUser 1000)).1 =
        { status := 201, success := true, message := "Transaction created successfully",
          data := some (Payload.transaction t), error := none } ∧
      Transaction.findById (TransactionController.createTransaction sampleEnv sampleWorld
          (sampleCreateReq sampleUser 1000)).2.transactions sampleEnv.freshId = some t) :=
  ⟨create_gated_without_step_up.1 sampleEnv sampleWorld (sampleCreateReq sampleUser 1500)
      sampleUser (sampleBody 1500) rfl rfl (by decide) (by decide),
   create_gated_without_step_up.2 sampleEnv sampleWorld (sampleCreateReq sampleUser 1000)
      sampleUser (sampleBody 1000) rfl rfl rfl (by decide)⟩

/-- C6 (defect in the code): a caller presents a valid bearer token, whatever its
`twoFactorVerified` claim (in particular `true`, as minted by `verify2FA`); `authenticate`
loads the user document and sets `req.user` to it, dropping the claims of the token. When
the document has no true step-up flag, the route `POST /api/transactions` answers 403 to
every valid request with amount above 1000, and nothing is created. -/
theorem step_up_claim_of_token_is_ignored (env : Env) (w : World) (req : Req) (jwt : Jwt)
    (user : User) (body : Body)
    (htoken : req.authorization = some (Token.signed jwt))
    (hsig : jwt.signedWith = env.jwtSecret) (hexp : env.now < jwt.exp)
    (huser : User.findById w.users jwt.payload.userId = some user)
    (hactive : user.isActive = true) (hlock : user.isLocked env.now = false)
    (hrate : env.rateLimited = false)
    (hb : req.body = some body) (hjoi : transactionSchemaError body = none)
    (hamt : body.amount > 1000) (hdoc : user.twoFactorVerified ≠ some true) :
    postTransaction env w req =
      ({ status := 403, success := false,
         message := "2FA verification required for high-value transactions",
         data := none, error := none }, w) := by
  have hverify : jwtVerify (Token.signed jwt) env.jwtSecret env.now = Except.ok jwt.payload := by
    simp [jwtVerify, hsig, not_le.mpr hexp]
  have hchain : runChain env w
      [Middleware.authenticate, Middleware.transactionLimiter, Middleware.validateTransaction,
       Middleware.audit "transaction_create" (some "Transaction")] req =
      Outcome.reached { req with
        user := some user
        sendWrappers := AuditWrapper.mk "transaction_create" (some "Transaction") ::
          req.sendWrappers } := by
    simp [runChain, Middleware.run, authenticate, htoken, hverify, huser, hactive, hlock,
      transactionLimiter, hrate, validateTransaction, hb, hjoi, audit]
  unfold postTransaction serve
  rw [hchain]
  exact createTransaction_forbidden env w _ user body rfl hb hamt hdoc

/-- C6, at the token minted by `verify2FA` for user 1 (claim `twoFactorVerified = true`)
and a valid request of 1500. -/
theorem step_up_claim_of_token_is_ignored_witness :
    (verify2FAAuthToken sampleEnv sampleUser).payload.twoFactorVerified = some true ∧
    postTransaction sampleEnv sampleWorld
        (sampleReq (some sampleFullToken) (some (sampleBody 1500)) none) =
      ({ status := 403, success := false,
         message := "2FA verification required for high-value transactions",
         data := none, error := none }, sampleWorld) :=
  ⟨rfl, step_up_claim_of_token_is_ignored sampleEnv sampleWorld
    (sampleReq (some sampleFullToken) (some (sampleBody 1500)) none)
    (verify2FAAuthToken sampleEnv sampleUser) sampleUser (sampleBody 1500)
    rfl rfl (by decide) (by decide) rfl rfl rfl rfl (by decide) (by decide) (by decide)⟩

/-- C7: for every transaction data and every hour, `calculateRiskScore` is the band of the
amount plus the off-hours surcharge, one band only; the score of 15000 at hour 2 is 55 and
that of 500 at hour 14 is 0; the amounts 1000, 5000 and 10000 are in the lower band; the
hours 6 and 22 carry no surcharge while 5 and 23 do. -/
theorem calculateRiskScore_eq_band_add_offHours :
    (∀ (transactionData : TransactionData) (h : Nat),
      TransactionService.calculateRiskScore transactionData h =
        band transactionData.amount + offHours h) ∧
    TransactionService.calculateRiskScore (sampleData 15000) 2 = 55 ∧
    TransactionService.calculateRiskScore (sampleData 500) 14 = 0 ∧
    TransactionService.calculateRiskScore (sampleData 1000) 14 = 0 ∧
    TransactionService.calculateRiskScore (sampleData 5000) 14 = 10 ∧
    TransactionService.calculateRiskScore (sampleData 10000) 14 = 20 ∧
    TransactionService.calculateRiskScore (sampleData 10001) 14 = 40 ∧
    TransactionService.calculateRiskScore (sampleData 500) 6 = 0 ∧
    TransactionService.calculateRiskScore (sampleData 500) 22 = 0 ∧
    TransactionService.calculateRiskScore (sampleData 500) 5 = 15 ∧
    TransactionService.calculateRiskScore (sampleData 500) 23 = 15 := by
  refine ⟨?_, by decide, by decide, by decide, by decide, by decide, by decide, by decide,
    by decide, by decide, by decide⟩
  intro transactionData h
  unfold TransactionService.calculateRiskScore band offHours
  split_ifs <;> simp

/-- C8: for every stored transaction whose status is not pending, `approveTransaction` and
`rejectTransaction` throw 'Transaction cannot be approved' / 'Transaction cannot be
rejected' before any save; the controllers answer 400 with that message and the whole
state (every record, the audit log) is unchanged, whatever audit wrappers are installed on
the response; and the routes `PATCH /:transactionId/approve` and `/reject`, with their
`audit` middleware, answer a failure and leave the state unchanged too. -/
theorem resolve_not_pending_fails (env : Env) (w : World) (req : Req) (user : User)
    (id : ObjectId) (t : Transaction)
    (hu : req.user = some user) (hp : req.params.transactionId = some id)
    (hfind : Transaction.findById w.transactions id = some t) (hst : t.status ≠ Status.pending) :
    TransactionService.approveTransaction env w.transactions id user._id =
      Except.error "Transaction cannot be approved" ∧
    TransactionService.rejectTransaction env w.transactions id user._id =
      Except.error "Transaction cannot be rejected" ∧
    TransactionController.approveTransaction env w req =
      ({ status := 400, success := false, message := "Transaction cannot be approved",
         data := none, error := none }, w) ∧
    TransactionController.rejectTransaction env w req =
      ({ status := 400, success := false, message := "Transaction cannot be rejected",
         data := none, error := none }, w) ∧
    (patchApprove env w req).1.success = false ∧ (patchApprove env w req).2 = w ∧
    (patchReject env w req).1.success = false ∧ (patchReject env w req).2 = w := by
  refine ⟨?_, ?_, ?_, ?_, ?_⟩
  · simp [TransactionService.approveTransaction, hfind, hst]
  · simp [TransactionService.rejectTransaction, hfind, hst]
  · exact approveTransaction_controller_not_pending env w req user id t hu hp hfind hst
  · exact rejectTransaction_controller_not_pending env w req user id t hu hp hfind hst
  · have ha : (patchApprove env w req).1.success = false ∧ (patchApprove env w req).2 = w := by
      unfold patchApprove
      rcases serve_guarded env w ["admin", "approver"] "transaction_approve" (some "Transaction")
        TransactionController.approveTransaction req with ⟨r, hr, hs⟩ | ⟨user1, _, hr⟩
      · rw [hr]; exact ⟨hs, rfl⟩
      · rw [hr, approveTransaction_controller_not_pending env w
          { req with
            user := some user1
            sendWrappers := AuditWrapper.mk "transaction_approve" (some "Transaction") ::
              req.sendWrappers } user1 id t rfl hp hfind hst]
        exact ⟨rfl, rfl⟩
    have hr : (patchReject env w req).1.success = false ∧ (patchReject env w req).2 = w := by
      unfold patchReject
      rcases serve_guarded env w ["admin", "approver"] "transaction_reject" (some "Transaction")
        TransactionController.rejectTransaction req with ⟨r, hr, hs⟩ | ⟨user1, _, hr⟩
      · rw [hr]; exact ⟨hs, rfl⟩
      · rw [hr, rejectTransaction_controller_not_pending env w
          { req with
            user := some user1
            sendWrappers := AuditWrapper.mk "transaction_reject" (some "Transaction") ::
              req.sendWrappers } user1 id t rfl hp hfind hst]
        exact ⟨rfl, rfl⟩
    exact ⟨ha.1, ha.2, hr.1, hr.2⟩

/-- C8, at the already approved transaction 9 and a request of the approver. -/
theorem resolve_not_pending_fails_witness :
    TransactionService.approveTransaction sampleEnv sampleWorldResolved.transactions 9
        sampleApprover._id = Except.error "Transaction cannot be approved" ∧
    TransactionService.rejectTransaction sampleEnv sampleWorldResolved.transactions 9
        sampleApprover._id = Except.error "Transaction cannot be rejected" ∧
    TransactionController.approveTransaction sampleEnv sampleWorldResolved sampleResolveReq =
      ({ status := 400, success := false, message := "Transaction cannot be approved",
         data := none, error := none }, sampleWorldResolved) ∧
    TransactionController.rejectTransaction sampleEnv sampleWorldResolved sampleResolveReq =
      ({ status := 400, success := false, message := "Transaction cannot be rejected",
         data := none, error := none }, sampleWorldResolved) ∧
    (patchApprove sampleEnv sampleWorldResolved sampleResolveReq).1.success = false ∧
    (patchApprove sampleEnv sampleWorldResolved sampleResolveReq).2 = sampleWorldResolved ∧
    (patchReject sampleEnv sampleWorldResolved sampleResolveReq).1.success = false ∧
    (patchReject sampleEnv sampleWorldResolved sampleResolveReq).2 = sampleWorldResolved :=
  resolve_not_pending_fails sampleEnv sampleWorldResolved sampleResolveReq sampleApprover 9
    sampleResolved rfl rfl (by decide) (by decide)

/-- C9: for every list of roles and every request whose `req.user` is set,
`authorize(...roles)` calls `next()` exactly when the user's role is in the list and
otherwise answers 403 'Access denied. Insufficient permissions.'; a route that starts with
`authenticate` and `authorize(...roles)` then answers that 403 whatever its handler is,
with the state unchanged; in `routes/transactions.js` the handlers `approveTransaction`,
`rejectTransaction` and `getPendingApprovals` are reached only with a user whose role is
admin or approver, and in `routes/audit.js` every handler only with role admin. -/
theorem authorize_guards_routes :
    (∀ (roles : List String) (req : Req) (user : User), req.user = some user →
      (authorize roles req = Step.next req ↔ user.role ∈ roles) ∧
      (user.role ∉ roles → authorize roles req = Step.respond insufficientPermissions) ∧
      insufficientPermissions.status = 403) ∧
    (∀ (env : Env) (w : World) (roles : List String) (rest : List Middleware)
      (handler : Env → World → Req → Response × World) (req : Req) (user : User),
      authenticate env w req = Step.next { req with user := some user } → user.role ∉ roles →
      serve env w (Middleware.authenticate :: Middleware.authorize roles :: rest) handler req =
        (insufficientPermissions, w)) ∧
    (∀ (env : Env) (w : World) (route : Route) (req req1 : Req), route ∈ transactionRoutes →
      route.handler ∈ [Handler.approveTransaction, Handler.rejectTransaction,
        Handler.getPendingApprovals] →
      runChain env w route.middlewares req = Outcome.reached req1 →
      ∃ user, req1.user = some user ∧ (user.role = "admin" ∨ user.role = "approver")) ∧
    (∀ (env : Env) (w : World) (route : Route) (req req1 : Req), route ∈ auditRoutes →
      runChain env w route.middlewares req = Outcome.reached req1 →
      ∃ user, req1.user = some user ∧ user.role = "admin") := by
  refine ⟨?_, ?_, ?_, ?_⟩
  · intro roles req user hu
    have h := authorize_of_user roles req user hu
    by_cases hrole : roles.contains user.role = true
    · rw [if_pos hrole] at h
      have hmem : user.role ∈ roles := by simpa using hrole
      exact ⟨⟨fun _ => hmem, fun _ => h⟩, fun hn => absurd hmem hn, rfl⟩
    · rw [if_neg hrole] at h
      have hmem : user.role ∉ roles := by simpa using hrole
      refine ⟨⟨fun hnext => ?_, fun hm => absurd hm hmem⟩, fun _ => h, rfl⟩
      rw [h] at hnext
      exact absurd hnext (by simp)
  · intro env w roles rest handler req user hn hrole
    have hc : roles.contains user.role = false := by simpa using hrole
    have h := authorize_of_user roles { req with user := some user } user rfl
    rw [hc] at h
    simp only [serve, runChain, Middleware.run, hn, h]
    exact send_of_not_success env _ _ w rfl
  · intro env w route req req1 hroute hhandler hreach
    simp only [transactionRoutes, List.mem_cons, List.mem_singleton, List.not_mem_nil,
      or_false] at hroute
    rcases hroute with h | h | h | h | h | h <;> subst h
    · simp at hhandler
    · simp at hhandler
    · simp at hhandler
    · obtain ⟨user, h1, h2⟩ := runChain_guarded env w _ [] req req1 (Or.inl rfl) hreach
      exact ⟨user, h1, by simpa using h2⟩
    · obtain ⟨user, h1, h2⟩ := runChain_guarded env w _ _ req req1 (Or.inr ⟨_, _, rfl⟩) hreach
      exact ⟨user, h1, by simpa using h2⟩
    · obtain ⟨user, h1, h2⟩ := runChain_guarded env w _ _ req req1 (Or.inr ⟨_, _, rfl⟩) hreach
      exact ⟨user, h1, by simpa using h2⟩
  · intro env w route req req1 hroute hreach
    simp only [auditRoutes, List.mem_cons, List.mem_singleton, List.not_mem_nil,
      or_false] at hroute
    rcases hroute with h | h <;> subst h
    · obtain ⟨user, h1, h2⟩ := runChain_guarded env w _ [] req req1 (Or.inl rfl) hreach
      exact ⟨user, h1, by simpa using h2⟩
    · obtain ⟨user, h1, h2⟩ := runChain_guarded env w _ [] req req1 (Or.inl rfl) hreach
      exact ⟨user, h1, by simpa using h2⟩

/-- C9, at the plain user 1 and the approver 2 against the roles admin and approver, and
at the approve route reached by the approver. -/
theorem authorize_guards_routes_witness :
    authorize ["admin", "approver"] sampleResolveReq = Step.next sampleResolveReq ∧
    authorize ["admin", "approver"] (sampleCreateReq sampleUser 800) =
      Step.respond insufficientPermissions ∧
    (∃ user, sampleReachedReq.user = some user ∧
      (user.role = "admin" ∨ user.role = "approver")) :=
  ⟨((authorize_guards_routes.1 ["admin", "approver"] sampleResolveReq sampleApprover rfl).1).mpr
      (by decide),
   (authorize_guards_routes.1 ["admin", "approver"] (sampleCreateReq sampleUser 800) sampleUser
      rfl).2.1 (by decide),
   authorize_guards_routes.2.2.1 sampleEnv sampleWorld sampleApproveRoute
      (sampleReq (some sampleApproverToken) none (some 7)) sampleReachedReq
      (by decide) (by decide) (by decide)⟩

/-- C10 (defect in the code): `controllers/transactionController.js` never binds the
identifier `Transaction` that `getTransactionById` evaluates, so for every request and
every state the controller answers 500 'Error fetching transaction' (error 'Transaction
is not defined') and the state is unchanged: neither the record nor the 403 nor the 404 is
ever sent. In particular the owner, user 1, fetching the stored transaction 7 through the
route `GET /:transactionId` receives 500 and no data. -/
theorem getTransactionById_never_found :
    (∀ (env : Env) (w : World) (req : Req),
      TransactionController.getTransactionById env w req =
        ({ status := 500, success := false, message := "Error fetching transaction",
           data := none, error := some "Transaction is not defined" }, w)) ∧
    Transaction.findById sampleWorld.transactions 7 = some sampleHighValue ∧
    sampleHighValue.userId = sampleUser._id ∧
    getTransaction sampleEnv sampleWorld (sampleReq (some sampleFullToken) none (some 7)) =
      ({ status := 500, success := false, message := "Error fetching transaction",
         data := none, error := some "Transaction is not defined" }, sampleWorld) :=
  ⟨getTransactionById_missing_import, by decide, by decide, by decide⟩

/-! ## Lemmas on saving, two-factor enrolment and audit queries -/

theorem persist_mem {coll : List Transaction} {t x : Transaction}
    (h : x ∈ Transaction.persist coll t) : x = t ∨ x ∈ coll := by
  unfold Transaction.persist at h
  split at h
  · rw [List.mem_map] at h
    obtain ⟨y, hy, hxy⟩ := h
    by_cases hid : (y._id == t._id) = true
    · rw [if_pos hid] at hxy
      exact Or.inl hxy.symm
    · rw [if_neg hid] at hxy
      exact Or.inr (hxy ▸ hy)
  · rw [List.mem_append, List.mem_singleton] at h
    exact h.symm

/-- A save that returns has validated the document, and returns what `save_valid`
describes. -/
theorem save_ok_fields {env : Env} {coll coll1 : List Transaction} {t t1 : Transaction}
    (h : Transaction.save env coll t = Except.ok (t1, coll1)) :
    Transaction.findById coll1 t._id = some t1 ∧
    t1._id = t._id ∧ t1.userId = t.userId ∧ t1.amount = t.amount ∧ t1.riskScore = t.riskScore ∧
    t1.status = (if t.amount > 5000 then Status.pending else t.status) ∧
    t1.requiresApproval = (if t.amount > 5000 then true else t.requiresApproval) ∧
    (∀ x ∈ coll1, x = t1 ∨ x ∈ coll) := by
  have hv : t.validate = true := by
    by_contra hv
    simp [Transaction.save, hv] at h
  obtain ⟨t2, coll2, hs, hf, h1, h2, h3, h4, _, _, h7, h8, _⟩ := save_valid env coll t hv
  rw [hs] at h
  simp only [Except.ok.injEq, Prod.mk.injEq] at h
  obtain ⟨ht, hc⟩ := h
  subst ht
  subst hc
  refine ⟨hf, h1, h2, h3, h4, h7, h8, ?_⟩
  intro x hx
  have hsave : Transaction.save env coll t =
      Except.ok ({ t.preSave with createdAt := some (t.preSave.createdAt.getD env.now),
                                  updatedAt := some env.now },
        Transaction.persist coll { t.preSave with
          createdAt := some (t.preSave.createdAt.getD env.now), updatedAt := some env.now }) := by
    simp [Transaction.save, hv]
  rw [hsave] at hs
  simp only [Except.ok.injEq, Prod.mk.injEq] at hs
  obtain ⟨ht, hc⟩ := hs
  rw [← hc, ht] at hx
  exact persist_mem hx

theorem createAwait_not_writable (coll : List AuditLog) (doc : AuditLog) :
    ∃ e, AuditLog.createAwait false coll doc = Except.error e := by
  unfold AuditLog.createAwait
  split
  · exact ⟨_, rfl⟩
  · exact ⟨_, rfl⟩

theorem createAwait_writable (coll : List AuditLog) (doc : AuditLog)
    (ha : auditActions.contains doc.action = true) (he : doc.userEmail ≠ "")
    (hr : doc.userRole ≠ "") :
    AuditLog.createAwait true coll doc = Except.ok (coll ++ [doc]) := by
  have hm : doc.action ∈ auditActions := by simpa using ha
  simp [AuditLog.createAwait, hm, he, hr]

theorem user_findById_persist (coll : List User) (u : User) :
    User.findById (User.persist coll u) u._id = some u := by
  unfold User.persist User.findById
  by_cases hany : coll.any (fun x => x._id == u._id) = true
  · rw [if_pos hany]
    induction coll with
    | nil => simp at hany
    | cons x xs ih =>
      by_cases hx : x._id = u._id
      · simp [List.map_cons, List.find?_cons, hx]
      · have hxs : xs.any (fun x => x._id == u._id) = true := by
          simpa [hx] using hany
        have hb : (x._id == u._id) = false := by simpa using hx
        rw [List.map_cons, if_neg (by simp [hb]), List.find?_cons, hb]
        exact ih hxs
  · rw [if_neg hany]
    have hnone : coll.find? (fun x => x._id == u._id) = none := by
      rw [List.find?_eq_none]
      intro x hx hxt
      exact hany (List.any_eq_true.mpr ⟨x, hx, hxt⟩)
    simp [List.find?_append, hnone]

theorem user_findById_id {coll : List User} {id : ObjectId} {u : User}
    (h : User.findById coll id = some u) : u._id = id := by
  unfold User.findById at h
  have := List.find?_some h
  simpa using this

/-- What `TwoFactorService.enable2FA` does on a stored user, by the stored secret and the
verdict of the one-time-password check. -/
theorem enable2FA_cases (env : Env) (users : List User) (userId : ObjectId) (token : Nat)
    (user : User) (hfind : User.findById users userId = some user) :
    TwoFactorService.enable2FA env users userId token =
      match user.twoFactorSecret with
      | none => Except.error "2FA secret not generated"
      | some secret =>
        if secret = "" then Except.error "2FA secret not generated"
        else if Totp.verify secret token 1 env.now then
          Except.ok (true, User.persist users { user with twoFactorEnabled := true })
        else Except.error "Invalid 2FA token" := by
  unfold TwoFactorService.enable2FA TwoFactorService.verifyToken
  rw [hfind]
  obtain ⟨uid, email, role, active, secret, enabled, attempts, lock, last, verified⟩ := user
  cases secret with
  | none => simp
  | some secret =>
    by_cases he : secret = ""
    · simp [he]
    · by_cases hv : Totp.verify secret token 1 env.now = true
      · simp [he, hv]
      · simp [he, hv]

/-! ## The claims on authentication, audit and the risk score -/

/-- C18: for every transaction data (any amount: zero, negative, arbitrarily large) and
every hour, `calculateRiskScore` is a natural number between 0 and 100, so it passes the
`riskScore` validators of the schema (`min: 0`, `max: 100`); and it depends only on the
amount and the hour: two transaction data with the same amount get the same score at the
same hour. -/
theorem calculateRiskScore_bounded_and_determined :
    (∀ (transactionData : TransactionData) (h : Nat),
      0 ≤ TransactionService.calculateRiskScore transactionData h ∧
      TransactionService.calculateRiskScore transactionData h ≤ 100) ∧
    (∀ (d1 d2 : TransactionData) (h : Nat), d1.amount = d2.amount →
      TransactionService.calculateRiskScore d1 h = TransactionService.calculateRiskScore d2 h) ∧
    TransactionService.calculateRiskScore (sampleData 0) 14 = 0 ∧
    TransactionService.calculateRiskScore (sampleData (-250)) 3 = 15 ∧
    TransactionService.calculateRiskScore (sampleData 1000000000000) 23 = 55 := by
  refine ⟨fun d h => ⟨Nat.zero_le _, calculateRiskScore_le d h⟩, ?_, by decide, by decide,
    by decide⟩
  intro d1 d2 h hamt
  unfold TransactionService.calculateRiskScore
  rw [hamt]

/-- C18, at two transaction data of amount 7000 that differ in every other field. -/
theorem calculateRiskScore_bounded_and_determined_witness :
    TransactionService.calculateRiskScore (sampleData 7000) 23 =
      TransactionService.calculateRiskScore
        { sampleData 7000 with userId := 2, type := "payment", description := some "rent" } 23 :=
  calculateRiskScore_bounded_and_determined.2.1 (sampleData 7000)
    { sampleData 7000 with userId := 2, type := "payment", description := some "rent" } 23 rfl

/-- C11 (defect in the code): while the audit collection cannot be written, the handlers
of `controllers/authController.js` keep their state change and answer a failure, because
they `await AuditLog.create` inside their `try`: `register` stores the new user and
answers 500, `login` resets the counters and answers 500 without a token, `enable2FA`
stores `twoFactorEnabled = true` and answers 400, `disable2FA` clears the secret and
answers 500. -/
theorem audit_failure_fails_auth_handlers :
    (∀ (a : AuthEnv) (w : World) (req : AuthReq), a.auditWritable = false →
      User.findOne w.users req.email = none →
      (AuthController.register a w req).1.status = 500 ∧
      (AuthController.register a w req).1.success = false ∧
      User.findById (AuthController.register a w req).2.users a.env.freshId =
        some (User.new a.env req.email req.role)) ∧
    (∀ (a : AuthEnv) (w : World) (req : AuthReq) (user : User), a.auditWritable = false →
      User.findOne w.users req.email = some user → user.isActive = true →
      user.isLocked a.env.now = false → a.comparePassword user req.password = true →
      (AuthController.login a w req).1.status = 500 ∧
      (AuthController.login a w req).1.success = false ∧
      (AuthController.login a w req).1.token = none ∧
      (AuthController.login a w req).2.users = User.findByIdAndUpdate w.users user._id
        (fun x => { x with loginAttempts := 0, lockUntil := none, lastLogin := some a.env.now })) ∧
    (∀ (a : AuthEnv) (w : World) (req : AuthReq) (user : User) (users1 : List User),
      a.auditWritable = false → req.user = some user →
      TwoFactorService.enable2FA a.env w.users user._id req.token = Except.ok (true, users1) →
      (AuthController.enable2FA a w req).1.status = 400 ∧
      (AuthController.enable2FA a w req).1.success = false ∧
      (AuthController.enable2FA a w req).2.users = users1) ∧
    (∀ (a : AuthEnv) (w : World) (req : AuthReq) (user : User),
      a.auditWritable = false → req.user = some user →
      (AuthController.disable2FA a w req).1.status = 500 ∧
      (AuthController.disable2FA a w req).1.success = false ∧
      (AuthController.disable2FA a w req).2.users =
        (TwoFactorService.disable2FA w.users user._id).2) := by
  refine ⟨?_, ?_, ?_, ?_⟩
  · intro a w req hw hnone
    obtain ⟨e, he⟩ := createAwait_not_writable (w.auditLogs)
      (authAuditDoc a.env "user_create" (User.new a.env req.email req.role) req)
    simp only [AuthController.register, hnone, hw, he]
    exact ⟨trivial, trivial, user_findById_persist w.users (User.new a.env req.email req.role)⟩
  · intro a w req user hw hfind hactive hlock hpw
    obtain ⟨e, he⟩ := createAwait_not_writable (w.auditLogs) (authAuditDoc a.env "login" user req)
    simp [AuthController.login, hfind, hactive, hlock, hpw, hw, he]
  · intro a w req user users1 hw hu hsvc
    obtain ⟨e, he⟩ := createAwait_not_writable (w.auditLogs)
      (authAuditDoc a.env "2fa_enable" user req)
    simp [AuthController.enable2FA, hu, hsvc, hw, he]
  · intro a w req user hw hu
    obtain ⟨e, he⟩ := createAwait_not_writable (w.auditLogs)
      (authAuditDoc a.env "2fa_disable" user req)
    simp [AuthController.disable2FA, hu, hw, he]

/-- C11, at the registration of a new email while the audit collection is down. -/
theorem audit_failure_fails_auth_handlers_witness :
    (AuthController.register sampleAuthEnvDown sampleWorld sampleRegisterReq).1.status = 500 ∧
    (AuthController.register sampleAuthEnvDown sampleWorld sampleRegisterReq).1.success = false ∧
    User.findById (AuthController.register sampleAuthEnvDown sampleWorld sampleRegisterReq).2.users
      sampleAuthEnvDown.env.freshId =
        some (User.new sampleAuthEnvDown.env sampleRegisterReq.email sampleRegisterReq.role) :=
  audit_failure_fails_auth_handlers.1 sampleAuthEnvDown sampleWorld sampleRegisterReq rfl
    (by decide)

/-- C14: for every active user whose lock-until is after now, whatever the submitted
password, whatever the password check would say and whether or not the audit collection
is writable, `login` answers 423 'Account temporarily locked. Please try again later.'
with no token, and the state is unchanged: the failure counter, lock-until and last-login
are as before and no audit event is written. -/
theorem login_locked (a : AuthEnv) (w : World) (req : AuthReq) (user : User) (lockedUntil : Date)
    (hfind : User.findOne w.users req.email = some user) (hactive : user.isActive = true)
    (hlock : user.lockUntil = some lockedUntil) (hnow : lockedUntil > a.env.now) :
    user.isLocked a.env.now = true ∧
    AuthController.login a w req =
      ({ status := 423, success := false,
         message := "Account temporarily locked. Please try again later.",
         token := none, userId := none, requires2FA := false, error := none }, w) := by
  have hl : user.isLocked a.env.now = true := by
    simp [User.isLocked, hlock, hnow]
  refine ⟨hl, ?_⟩
  simp [AuthController.login, hfind, hactive, hl]

/-- C14, at user 3, locked until second 9000, logging in at second 5000 with the right
password. -/
theorem login_locked_witness :
    sampleAuthEnv.comparePassword sampleLockedUser sampleLockedLoginReq.password = true ∧
    sampleLockedUser.isLocked sampleAuthEnv.env.now = true ∧
    AuthController.login sampleAuthEnv sampleLockedWorld sampleLockedLoginReq =
      ({ status := 423, success := false,
         message := "Account temporarily locked. Please try again later.",
         token := none, userId := none, requires2FA := false, error := none },
       sampleLockedWorld) :=
  ⟨by decide, login_locked sampleAuthEnv sampleLockedWorld sampleLockedLoginReq sampleLockedUser
    9000 (by decide) rfl rfl (by decide)⟩

/-- C15: for a stored user with a non-empty stored secret, when the submitted code passes
the one-time-password check `enable2FA` returns `true` and stores the user with
`twoFactorEnabled = true` and the same secret; when it does not, `enable2FA` throws
'Invalid 2FA token'; for a stored user with no secret it throws '2FA secret not
generated'. In both failures nothing is stored: the controller answers 400 with that
message and the state is unchanged. -/
theorem enable2FA_outcomes :
    (∀ (env : Env) (users : List User) (userId : ObjectId) (token : Nat) (user : User)
      (secret : String), User.findById users userId = some user →
      user.twoFactorSecret = some secret → secret ≠ "" →
      Totp.verify secret token 1 env.now = true →
      TwoFactorService.enable2FA env users userId token =
        Except.ok (true, User.persist users { user with twoFactorEnabled := true }) ∧
      User.findById (User.persist users { user with twoFactorEnabled := true }) userId =
        some { user with twoFactorEnabled := true } ∧
      ({ user with twoFactorEnabled := true } : User).twoFactorSecret = some secret) ∧
    (∀ (a : AuthEnv) (w : World) (req : AuthReq) (u0 user : User) (secret : String),
      req.user = some u0 → User.findById w.users u0._id = some user →
      user.twoFactorSecret = some secret → secret ≠ "" →
      Totp.verify secret req.token 1 a.env.now = false →
      TwoFactorService.enable2FA a.env w.users u0._id req.token =
        Except.error "Invalid 2FA token" ∧
      AuthController.enable2FA a w req =
        ({ status := 400, success := false, message := "Invalid 2FA token",
           token := none, userId := none, requires2FA := false, error := none }, w)) ∧
    (∀ (a : AuthEnv) (w : World) (req : AuthReq) (u0 user : User),
      req.user = some u0 → User.findById w.users u0._id = some user →
      user.twoFactorSecret = none →
      TwoFactorService.enable2FA a.env w.users u0._id req.token =
        Except.error "2FA secret not generated" ∧
      AuthController.enable2FA a w req =
        ({ status := 400, success := false, message := "2FA secret not generated",
           token := none, userId := none, requires2FA := false, error := none }, w)) := by
  refine ⟨?_, ?_, ?_⟩
  · intro env users userId token user secret hfind hs hne hv
    have hid := user_findById_id hfind
    refine ⟨?_, ?_, hs⟩
    · rw [enable2FA_cases env users userId token user hfind, hs]
      simp [hne, hv]
    · have := user_findById_persist users { user with twoFactorEnabled := true }
      rw [← hid]
      exact this
  · intro a w req u0 user secret hu hfind hs hne hv
    have hsvc : TwoFactorService.enable2FA a.env w.users u0._id req.token =
        Except.error "Invalid 2FA token" := by
      rw [enable2FA_cases a.env w.users u0._id req.token user hfind, hs]
      simp [hne, hv]
    refine ⟨hsvc, ?_⟩
    simp only [AuthController.enable2FA, hu, hsvc]
  · intro a w req u0 user hu hfind hs
    have hsvc : TwoFactorService.enable2FA a.env w.users u0._id req.token =
        Except.error "2FA secret not generated" := by
      rw [enable2FA_cases a.env w.users u0._id req.token user hfind, hs]
    refine ⟨hsvc, ?_⟩
    simp only [AuthController.enable2FA, hu, hsvc]

/-- C15, at the enrolling user 4 with the code of the current step (646839) and with a
wrong code (111111), and at user 5, who has no secret. -/
theorem enable2FA_outcomes_witness :
    TwoFactorService.enable2FA sampleTotpEnv sampleEnrollWorld.users 4 646839 =
      Except.ok (true, User.persist sampleEnrollWorld.users
        { sampleEnrollingUser with twoFactorEnabled := true }) ∧
    AuthController.enable2FA { sampleAuthEnv with env := sampleTotpEnv } sampleEnrollWorld
        (sampleEnableReq 111111) =
      ({ status := 400, success := false, message := "Invalid 2FA token",
         token := none, userId := none, requires2FA := false, error := none },
       sampleEnrollWorld) ∧
    AuthController.enable2FA { sampleAuthEnv with env := sampleTotpEnv } sampleEnrollWorld
        { sampleEnableReq 646839 with user := some sampleNotEnrolledUser } =
      ({ status := 400, success := false, message := "2FA secret not generated",
         token := none, userId := none, requires2FA := false, error := none },
       sampleEnrollWorld) :=
  ⟨(enable2FA_outcomes.1 sampleTotpEnv sampleEnrollWorld.users 4 646839 sampleEnrollingUser
      "JBSWY3DPEHPK3PXP" (by decide) rfl (by decide) (by decide!)).1,
   (enable2FA_outcomes.2.1 { sampleAuthEnv with env := sampleTotpEnv } sampleEnrollWorld
      (sampleEnableReq 111111) sampleEnrollingUser sampleEnrollingUser "JBSWY3DPEHPK3PXP"
      rfl (by decide) rfl (by decide) (by decide!)).2,
   (enable2FA_outcomes.2.2 { sampleAuthEnv with env := sampleTotpEnv } sampleEnrollWorld
      { sampleEnableReq 646839 with user := some sampleNotEnrolledUser } sampleNotEnrolledUser
      sampleNotEnrolledUser rfl (by decide) rfl).2⟩

/-- The model of HOTP gives the codes of the test vectors of RFC 4226 (appendix D) at the
counters 0, 1 and 9, and the published SHA-1 digest of `abc`. -/
theorem hotp_rfc4226_vectors :
    Totp.hotpOfKey rfc4226Key 0 = 755224 ∧ Totp.hotpOfKey rfc4226Key 1 = 287082 ∧
    Totp.hotpOfKey rfc4226Key 9 = 520489 ∧
    Totp.sha1 [97, 98, 99] = [169, 153, 62, 54, 71, 6, 129, 106, 186, 62, 37, 113, 120, 80, 194,
      108, 156, 208, 216, 157] := by
  refine ⟨by decide!, by decide!, by decide!, by decide!⟩

/-- The three steps that `Totp.verify` with `window = 1` compares a token with, at a time
whose step is at least 1. -/
theorem totp_verify_window_one (secret : String) (token : Nat) (time : Date)
    (h : 1 ≤ Totp.counterAt time) :
    Totp.verify secret token 1 time = true ↔
      Totp.hotp secret (Totp.counterAt time - 1) = token ∨
      Totp.hotp secret (Totp.counterAt time) = token ∨
      Totp.hotp secret (Totp.counterAt time + 1) = token := by
  have hr : List.range (2 * 1 + 1) = [0, 1, 2] := by decide
  have e0 : Totp.counterAt time + 0 - 1 = Totp.counterAt time - 1 := by omega
  have e1 : Totp.counterAt time + 1 - 1 = Totp.counterAt time := by omega
  have e2 : Totp.counterAt time + 2 - 1 = Totp.counterAt time + 1 := by omega
  have g0 : 1 ≤ Totp.counterAt time + 0 := by omega
  have g1 : 1 ≤ Totp.counterAt time + 1 := by omega
  have g2 : 1 ≤ Totp.counterAt time + 2 := by omega
  unfold Totp.verify
  rw [hr]
  simp only [List.any_cons, List.any_nil, e0, e1, e2, g0, g1, g2, decide_True, Bool.true_and,
    Bool.or_false, Bool.or_eq_true, beq_iff_eq]

/-- C16 (the claim fails): the token that `login` mints for user 1 has no
`twoFactorVerified` key in its payload; it does not carry `twoFactorVerified = false`. -/
theorem login_token_has_no_step_up_claim :
    (AuthController.login sampleAuthEnv sampleWorld sampleLoginReq).1.token.map
      (fun jwt => jwt.payload.twoFactorVerified) = some none ∧
    ¬ ∃ jwt, (AuthController.login sampleAuthEnv sampleWorld sampleLoginReq).1.token = some jwt ∧
      jwt.payload.twoFactorVerified = some false := by
  have h : (AuthController.login sampleAuthEnv sampleWorld sampleLoginReq).1.token.map
      (fun jwt => jwt.payload.twoFactorVerified) = some none := by decide
  refine ⟨h, ?_⟩
  rintro ⟨jwt, hj, hf⟩
  rw [hj] at h
  simp only [Option.map_some', Option.some.injEq] at h
  rw [hf] at h
  exact absurd h (by decide)

/-- C16 (amended): the token minted by a successful `login` carries the id, the email and
the role of the user and no `twoFactorVerified` key, and expires 24 hours after now; the
token minted by a successful `verify2FA` carries the id, the email, the role and
`twoFactorVerified = true`, and expires 12 hours after now, strictly sooner. -/
theorem token_claims_and_validity :
    (∀ (a : AuthEnv) (w : World) (req : AuthReq) (user : User), a.auditWritable = true →
      User.findOne w.users req.email = some user → user.isActive = true →
      user.isLocked a.env.now = false → a.comparePassword user req.password = true →
      user.email ≠ "" → user.role ≠ "" →
      (AuthController.login a w req).1.token =
        some { payload := { userId := user._id, email := user.email, role := user.role,
                            twoFactorVerified := none },
               signedWith := a.env.jwtSecret, exp := a.env.now + 24 * 3600 }) ∧
    (∀ (a : AuthEnv) (w : World) (req : AuthReq) (user : User) (secret : String),
      req.user = some user → user.twoFactorSecret = some secret →
      Totp.verify secret req.token 1 a.env.now = true →
      (AuthController.verify2FA a w req).1.token =
        some { payload := { userId := user._id, email := user.email, role := user.role,
                            twoFactorVerified := some true },
               signedWith := a.env.jwtSecret, exp := a.env.now + 12 * 3600 }) ∧
    (∀ now : Date, now + 12 * 3600 < now + 24 * 3600) := by
  refine ⟨?_, ?_, ?_⟩
  · intro a w req user hw hfind hactive hlock hpw he hr
    have ha : auditActions.contains (authAuditDoc a.env "login" user req).action = true := by
      simp [authAuditDoc, auditActions]
    have hc := createAwait_writable w.auditLogs (authAuditDoc a.env "login" user req) ha he hr
    simp [AuthController.login, hfind, hactive, hlock, hpw, hw, hc, jwtSign]
  · intro a w req user secret hu hs hv
    simp [AuthController.verify2FA, hu, TwoFactorService.verifyToken, hs, hv, jwtSign]
  · intro now
    exact Nat.add_lt_add_left (by decide) now

/-- C16 (amended), at the login of user 1 at second 5000 and at the verification of user 4
with the code of the current step. -/
theorem token_claims_and_validity_witness :
    (AuthController.login sampleAuthEnv sampleWorld sampleLoginReq).1.token =
      some { payload := { userId := 1, email := "a@example.com", role := "user",
                          twoFactorVerified := none },
             signedWith := "fallback-secret-key", exp := 5000 + 24 * 3600 } ∧
    (AuthController.verify2FA { sampleAuthEnv with env := sampleTotpEnv } sampleEnrollWorld
        (sampleEnableReq 646839)).1.token =
      some { payload := { userId := 4, email := "e@example.com", role := "user",
                          twoFactorVerified := some true },
             signedWith := "fallback-secret-key", exp := sampleTotpTime + 12 * 3600 } :=
  ⟨token_claims_and_validity.1 sampleAuthEnv sampleWorld sampleLoginReq sampleUser rfl
      (by decide) rfl (by decide) (by decide) (by decide) (by decide),
   token_claims_and_validity.2.1 { sampleAuthEnv with env := sampleTotpEnv } sampleEnrollWorld
      (sampleEnableReq 646839) sampleEnrollingUser "JBSWY3DPEHPK3PXP" rfl rfl (by decide!)⟩

/-- C17 (the claim fails): for the secret `JBSWY3DPEHPK3PXP` and the time 1777083000 (step
59236100) the one-time code is 646839, which is also the code of the step 59236096; checked
90 seconds earlier, when the window covers the steps 59236096 to 59236098, it is accepted
by `verifyToken`. -/
theorem totp_code_accepted_ninety_seconds_early :
    Totp.generate "JBSWY3DPEHPK3PXP" sampleTotpTime = 646839 ∧
    TwoFactorService.verifyToken { sampleEnv with now := sampleTotpTime - 90 } sampleEnrollingUser
      (Totp.generate "JBSWY3DPEHPK3PXP" sampleTotpTime) = Except.ok true := by
  have hg : Totp.generate "JBSWY3DPEHPK3PXP" sampleTotpTime = 646839 := by decide!
  have hv : Totp.verify "JBSWY3DPEHPK3PXP" 646839 1 (sampleTotpTime - 90) = true := by decide!
  refine ⟨hg, ?_⟩
  rw [hg]
  show Except.ok (Totp.verify "JBSWY3DPEHPK3PXP" 646839 1 (sampleTotpTime - 90)) = Except.ok true
  rw [hv]

/-- C17 (amended): for every user with a stored secret and every time `T` (at least two
minutes after the epoch), the one-time code generated for `T` is accepted by
`verifyToken` at `T - 30`, at `T` and at `T + 30`; at `T - 90` it is accepted exactly when
it coincides with the code of one of the three steps then in the window (the steps 4, 3
and 2 before that of `T`), and rejected otherwise. `verifyToken` returns this verdict and
nothing else: it writes no state. -/
theorem totp_window (env : Env) (user : User) (secret : String) (T : Date)
    (hs : user.twoFactorSecret = some secret) (hT : 120 ≤ T) :
    TwoFactorService.verifyToken { env with now := T - 30 } user (Totp.generate secret T) =
      Except.ok true ∧
    TwoFactorService.verifyToken { env with now := T } user (Totp.generate secret T) =
      Except.ok true ∧
    TwoFactorService.verifyToken { env with now := T + 30 } user (Totp.generate secret T) =
      Except.ok true ∧
    (TwoFactorService.verifyToken { env with now := T - 90 } user (Totp.generate secret T) =
        Except.ok true ↔
      Totp.hotp secret (Totp.counterAt T - 4) = Totp.generate secret T ∨
      Totp.hotp secret (Totp.counterAt T - 3) = Totp.generate secret T ∨
      Totp.hotp secret (Totp.counterAt T - 2) = Totp.generate secret T) := by
  have hT1 : (120 : Nat) ≤ T := hT
  have hc : 4 ≤ Totp.counterAt T := by unfold Totp.counterAt; omega
  have e1 : Totp.counterAt (T - 30) = Totp.counterAt T - 1 := by unfold Totp.counterAt; omega
  have e2 : Totp.counterAt (T + 30) = Totp.counterAt T + 1 := by unfold Totp.counterAt; omega
  have e3 : Totp.counterAt (T - 90) = Totp.counterAt T - 3 := by unfold Totp.counterAt; omega
  have a1 : Totp.counterAt T - 1 + 1 = Totp.counterAt T := by omega
  have a2 : Totp.counterAt T + 1 - 1 = Totp.counterAt T := by omega
  have a3 : Totp.counterAt T - 3 - 1 = Totp.counterAt T - 4 := by omega
  have a4 : Totp.counterAt T - 3 + 1 = Totp.counterAt T - 2 := by omega
  have g1 : 1 ≤ Totp.counterAt (T - 30) := by omega
  have g2 : 1 ≤ Totp.counterAt T := by omega
  have g3 : 1 ≤ Totp.counterAt (T + 30) := by omega
  have g4 : 1 ≤ Totp.counterAt (T - 90) := by omega
  have v1 := totp_verify_window_one secret (Totp.generate secret T) (T - 30) g1
  have v2 := totp_verify_window_one secret (Totp.generate secret T) T g2
  have v3 := totp_verify_window_one secret (Totp.generate secret T) (T + 30) g3
  have v4 := totp_verify_window_one secret (Totp.generate secret T) (T - 90) g4
  rw [e1, a1] at v1
  rw [e2, a2] at v3
  rw [e3, a3, a4] at v4
  simp only [TwoFactorService.verifyToken, hs, Except.ok.injEq]
  refine ⟨v1.mpr (Or.inr (Or.inr rfl)), v2.mpr (Or.inr (Or.inl rfl)), v3.mpr (Or.inl rfl), v4⟩

/-- C17 (amended), at user 4 and the time 1777083000: the code is accepted half a minute
before and after, and, being the code of the step four steps earlier too, 90 seconds
before. -/
theorem totp_window_witness :
    TwoFactorService.verifyToken { sampleEnv with now := sampleTotpTime - 30 } sampleEnrollingUser
      (Totp.generate "JBSWY3DPEHPK3PXP" sampleTotpTime) = Except.ok true ∧
    TwoFactorService.verifyToken { sampleEnv with now := sampleTotpTime + 30 } sampleEnrollingUser
      (Totp.generate "JBSWY3DPEHPK3PXP" sampleTotpTime) = Except.ok true :=
  ⟨(totp_window sampleEnv sampleEnrollingUser "JBSWY3DPEHPK3PXP" sampleTotpTime rfl
      (by decide)).1,
   (totp_window sampleEnv sampleEnrollingUser "JBSWY3DPEHPK3PXP" sampleTotpTime rfl
      (by decide)).2.2.1⟩

theorem matches_buildFilter (q : AuditQuery) (e : AuditLog) :
    (AuditController.buildFilter q).matches e = q.selects e := by
  unfold AuditController.buildFilter AuditFilter.matches AuditQuery.selects
  cases ha : q.action with
  | none => rfl
  | some a =>
    by_cases he : a = ""
    · simp [he]
    · have hb : (a == "") = false := by simpa using he
      simp only [he, if_false, hb, Bool.false_or]

theorem filter_buildFilter (q : AuditQuery) (l : List AuditLog) :
    l.filter (AuditController.buildFilter q).matches = l.filter q.selects := by
  congr 1
  funext e
  exact matches_buildFilter q e

/-- The pages of size `limit` of a list, one after the other, are its first
`n * limit` elements. -/
theorem flatMap_pages {α : Type} (l : List α) (limit n : Nat) :
    (List.range n).flatMap (fun k => (l.drop (k * limit)).take limit) = l.take (n * limit) := by
  induction n with
  | zero => simp
  | succ n ih =>
    rw [List.range_succ, List.flatMap_append, ih, List.flatMap_singleton, Nat.succ_mul,
      List.take_add]

theorem ceil_div_bounds (total limit : Nat) (h : 1 ≤ limit) :
    total ≤ (total + limit - 1) / limit * limit ∧
    (total + limit - 1) / limit * limit < total + limit := by
  have h1 := Nat.div_add_mod (total + limit - 1) limit
  have h2 := Nat.mod_lt (total + limit - 1) (Nat.lt_of_lt_of_le Nat.zero_lt_one h)
  rw [Nat.mul_comm] at h1
  constructor <;> omega

/-- What `getAuditLogs` answers to a query with page and limit at least 1. -/
theorem getAuditLogs_ok (w : World) (query : AuditQuery) (page limit : Nat)
    (hp : query.page = some page) (hl : query.limit = some limit)
    (hpage : 1 ≤ page) (hlimit : 1 ≤ limit) :
    AuditController.getAuditLogs w query =
      { status := 200, success := true,
        logs := ((sortByTimestampDesc (w.auditLogs.filter query.selects)).drop
          ((page - 1) * limit)).take limit,
        page := page, limit := limit,
        total := (w.auditLogs.filter query.selects).length,
        pages := some (((w.auditLogs.filter query.selects).length + limit - 1) / limit),
        error := none } := by
  have hp0 : page ≠ 0 := by omega
  have hl0 : limit ≠ 0 := by omega
  simp [AuditController.getAuditLogs, hp, hl, hp0, hl0, filter_buildFilter]

/-- C12 (the claim fails): with limit 1, page 1 of the ledger of two events is the event of
second 2; after one event is appended, page 2 is again the event of second 2: the same
event is returned on two pages. -/
theorem appended_event_repeats_page_entry :
    (AuditController.getAuditLogs sampleLedger (samplePageQuery 1 1)).logs =
      [sampleEvent "transaction_create" (some 8) 2] ∧
    sampleLedgerLater.auditLogs = sampleLedger.auditLogs ++ [sampleEvent "login" none 3] ∧
    (AuditController.getAuditLogs sampleLedgerLater (samplePageQuery 2 1)).logs =
      [sampleEvent "transaction_create" (some 8) 2] := by
  refine ⟨by decide, by decide, by decide⟩

/-- C12 (amended): for a ledger that does not change while the pages are fetched, every
query and every limit at least 1, the pages 1 to `pages` (the number of pages that
`getAuditLogs` reports), one after the other, are exactly the list of the matching events
sorted by timestamp descending, which is a rearrangement of the matching events: each of
them is on exactly one page, none is omitted. -/
theorem pages_partition_fixed_ledger (w : World) (query : AuditQuery) (limit pages : Nat)
    (hlimit : 1 ≤ limit)
    (hpages : (AuditController.getAuditLogs w
      { query with page := some 1, limit := some limit }).pages = some pages) :
    (List.range pages).flatMap (fun k => (AuditController.getAuditLogs w
        { query with page := some (k + 1), limit := some limit }).logs) =
      sortByTimestampDesc (w.auditLogs.filter query.selects) ∧
    (sortByTimestampDesc (w.auditLogs.filter query.selects)).Perm
      (w.auditLogs.filter query.selects) := by
  have hsel : ∀ p : Nat, AuditQuery.selects { query with page := some p, limit := some limit } =
      query.selects := fun _ => rfl
  have hpage : ∀ k : Nat, (AuditController.getAuditLogs w
      { query with page := some (k + 1), limit := some limit }).logs =
      ((sortByTimestampDesc (w.auditLogs.filter query.selects)).drop (k * limit)).take limit := by
    intro k
    rw [getAuditLogs_ok w _ (k + 1) limit rfl rfl (by omega) hlimit, hsel]
    simp
  rw [getAuditLogs_ok w _ 1 limit rfl rfl (le_refl 1) hlimit, hsel] at hpages
  simp only [Option.some.injEq] at hpages
  constructor
  · simp only [hpage]
    rw [flatMap_pages]
    apply List.take_of_length_le
    have hlen : (sortByTimestampDesc (w.auditLogs.filter query.selects)).length =
        (w.auditLogs.filter query.selects).length := by
      unfold sortByTimestampDesc
      exact List.length_insertionSort _ _
    rw [hlen, ← hpages]
    exact (ceil_div_bounds _ limit hlimit).1
  · unfold sortByTimestampDesc
    exact List.perm_insertionSort _ _

/-- C12 (amended), at the ledger of two events with limit 1: two pages, the event of
second 2 then the event of second 1. -/
theorem pages_partition_fixed_ledger_witness :
    (List.range 2).flatMap (fun k => (AuditController.getAuditLogs sampleLedger
        { samplePageQuery 1 1 with page := some (k + 1), limit := some 1 }).logs) =
      sortByTimestampDesc (sampleLedger.auditLogs.filter (samplePageQuery 1 1).selects) :=
  (pages_partition_fixed_ledger sampleLedger (samplePageQuery 1 1) 1 2 (le_refl 1)
    (by decide)).1

/-- C13 (the claim fails): a query that supplies the resource filter `resourceId = 7`
gets both events of the ledger, the event on resource 8 included: the result is not the
list of the events that match every supplied filter. -/
theorem resource_filter_is_ignored :
    (AuditController.getAuditLogs sampleLedger
        { samplePageQuery 1 10 with resourceId := some 7 }).logs =
      [sampleEvent "transaction_create" (some 8) 2, sampleEvent "transaction_create" (some 7) 1] ∧
    AuditQuery.selectsResource { samplePageQuery 1 10 with resourceId := some 7 }
      (sampleEvent "transaction_create" (some 8) 2) = false ∧
    (AuditController.getAuditLogs sampleLedger
        { samplePageQuery 1 10 with resourceId := some 7 }).logs ≠
      ((sortByTimestampDesc (sampleLedger.auditLogs.filter (fun e =>
          AuditQuery.selects { samplePageQuery 1 10 with resourceId := some 7 } e &&
          AuditQuery.selectsResource { samplePageQuery 1 10 with resourceId := some 7 } e))).drop
        0).take 10 := by
  refine ⟨by decide, by decide, by decide⟩

/-- C13 (amended): for every ledger, every query (action, actor and time range being the
filters; the resource keys are not read), every page and limit at least 1, `getAuditLogs`
answers 200 with exactly the slice `[(page-1)*limit, page*limit)` of a list `L` that is a
rearrangement of the events matching every supplied filter (time range inclusive at both
ends) and is sorted by timestamp descending; `total` is the number of matching events and
`pages` is the ceiling of `total / limit`. -/
theorem getAuditLogs_slice (w : World) (query : AuditQuery) (page limit : Nat)
    (hp : query.page = some page) (hl : query.limit = some limit)
    (hpage : 1 ≤ page) (hlimit : 1 ≤ limit) :
    ∃ (L : List AuditLog) (pages : Nat),
      L.Perm (w.auditLogs.filter query.selects) ∧
      L.Sorted (fun a b => a.timestamp ≥ b.timestamp) ∧
      (AuditController.getAuditLogs w query).status = 200 ∧
      (AuditController.getAuditLogs w query).logs = (L.drop ((page - 1) * limit)).take limit ∧
      (AuditController.getAuditLogs w query).total = (w.auditLogs.filter query.selects).length ∧
      (AuditController.getAuditLogs w query).pages = some pages ∧
      (w.auditLogs.filter query.selects).length ≤ pages * limit ∧
      pages * limit < (w.auditLogs.filter query.selects).length + limit := by
  refine ⟨sortByTimestampDesc (w.auditLogs.filter query.selects),
    ((w.auditLogs.filter query.selects).length + limit - 1) / limit, ?_, ?_, ?_, ?_, ?_, ?_,
    (ceil_div_bounds _ limit hlimit).1, (ceil_div_bounds _ limit hlimit).2⟩
  · unfold sortByTimestampDesc
    exact List.perm_insertionSort _ _
  · unfold sortByTimestampDesc
    exact @List.sorted_insertionSort AuditLog (fun a b => a.timestamp ≥ b.timestamp) _
      ⟨fun a b => Nat.le_total b.timestamp a.timestamp⟩
      ⟨fun a b c hab hbc => Nat.le_trans hbc hab⟩ _
  · rw [getAuditLogs_ok w query page limit hp hl hpage hlimit]
  · rw [getAuditLogs_ok w query page limit hp hl hpage hlimit]
  · rw [getAuditLogs_ok w query page limit hp hl hpage hlimit]
  · rw [getAuditLogs_ok w query page limit hp hl hpage hlimit]

/-- C13 (amended), at page 2 with limit 1 of the later ledger, filtered on the action
`transaction_create`: the event of second 1, of 2 matching events, on 2 pages. -/
theorem getAuditLogs_slice_witness :
    ∃ (L : List AuditLog) (pages : Nat),
      L.Perm (sampleLedgerLater.auditLogs.filter
        (AuditQuery.selects { samplePageQuery 2 1 with action := some "transaction_create" })) ∧
      L.Sorted (fun a b => a.timestamp ≥ b.timestamp) ∧
      (AuditController.getAuditLogs sampleLedgerLater
        { samplePageQuery 2 1 with action := some "transaction_create" }).status = 200 ∧
      (AuditController.getAuditLogs sampleLedgerLater
        { samplePageQuery 2 1 with action := some "transaction_create" }).logs =
          (L.drop ((2 - 1) * 1)).take 1 ∧
      (AuditController.getAuditLogs sampleLedgerLater
        { samplePageQuery 2 1 with action := some "transaction_create" }).total =
          (sampleLedgerLater.auditLogs.filter
            (AuditQuery.selects { samplePageQuery 2 1 with action := some "transaction_create" })).length ∧
      (AuditController.getAuditLogs sampleLedgerLater
        { samplePageQuery 2 1 with action := some "transaction_create" }).pages = some pages ∧
      (sampleLedgerLater.auditLogs.filter
        (AuditQuery.selects { samplePageQuery 2 1 with action := some "transaction_create" })).length
          ≤ pages * 1 ∧
      pages * 1 < (sampleLedgerLater.auditLogs.filter
        (AuditQuery.selects { samplePageQuery 2 1 with action := some "transaction_create" })).length
          + 1 :=
  getAuditLogs_slice sampleLedgerLater
    { samplePageQuery 2 1 with action := some "transaction_create" } 2 1 rfl rfl
    (by decide) (by decide)

/-! ## Lemmas on the persisted transaction state -/

theorem findById_none_iff {coll : List Transaction} {id : ObjectId} :
    Transaction.findById coll id = none ↔ id ∉ coll.map (fun x => x._id) := by
  unfold Transaction.findById
  rw [List.find?_eq_none]
  simp only [List.mem_map, not_exists, not_and]
  constructor
  · intro h x hx hid
    exact h x hx (by simpa using hid)
  · intro h x hx hid
    exact h x hx (by simpa using hid)

theorem findById_mem {coll : List Transaction} {id : ObjectId} {t : Transaction}
    (h : Transaction.findById coll id = some t) : t ∈ coll := by
  unfold Transaction.findById at h
  exact List.mem_of_find?_eq_some h

theorem persist_of_absent {coll : List Transaction} {t : Transaction}
    (h : Transaction.findById coll t._id = none) : Transaction.persist coll t = coll ++ [t] := by
  have hany : ¬ (coll.any (fun x => x._id == t._id) = true) := by
    intro hany
    obtain ⟨x, hx, hxt⟩ := List.any_eq_true.mp hany
    exact (findById_none_iff.mp h) (List.mem_map.mpr ⟨x, hx, by simpa using hxt⟩)
  unfold Transaction.persist
  rw [if_neg hany]

theorem persist_of_present {coll : List Transaction} {t u : Transaction}
    (h : Transaction.findById coll t._id = some u) :
    Transaction.persist coll t = coll.map (fun x => if x._id == t._id then t else x) := by
  have hany : coll.any (fun x => x._id == t._id) = true :=
    List.any_eq_true.mpr ⟨u, findById_mem h, by simpa using findById_id h⟩
  unfold Transaction.persist
  rw [if_pos hany]

/-- A save that returns has written, over the stored record of the same id or at the end
of the collection, the document with the hook applied. -/
theorem save_ok_persist {env : Env} {coll coll1 : List Transaction} {t t1 : Transaction}
    (h : Transaction.save env coll t = Except.ok (t1, coll1)) :
    coll1 = Transaction.persist coll t1 := by
  have hv : t.validate = true := by
    by_contra hv
    simp [Transaction.save, hv] at h
  have hsave : Transaction.save env coll t =
      Except.ok ({ t.preSave with createdAt := some (t.preSave.createdAt.getD env.now),
                                  updatedAt := some env.now },
        Transaction.persist coll { t.preSave with
          createdAt := some (t.preSave.createdAt.getD env.now), updatedAt := some env.now }) := by
    simp [Transaction.save, hv]
  rw [hsave] at h
  simp only [Except.ok.injEq, Prod.mk.injEq] at h
  obtain ⟨ht, hc⟩ := h
  rw [← hc, ht]

/-- A create that returns, with a new id, appends the created record. -/
theorem createTransaction_appends {env : Env} {coll coll1 : List Transaction}
    {data : TransactionData} {t1 : Transaction}
    (hfresh : Transaction.findById coll env.freshId = none)
    (h : TransactionService.createTransaction env coll data = Except.ok (t1, coll1)) :
    coll1 = coll ++ [t1] ∧ t1._id = env.freshId ∧ t1.amount = data.amount ∧
    t1.userId = data.userId ∧
    t1.riskScore = TransactionService.calculateRiskScore data env.hour ∧
    t1.status = Status.pending ∧ t1.requiresApproval = decide (data.amount > 5000) := by
  unfold TransactionService.createTransaction at h
  have hp := save_ok_persist h
  obtain ⟨_, h1, h2, h3, h4, h5, h6, _⟩ := save_ok_fields h
  have hid : t1._id = env.freshId := h1
  have hamt : t1.amount = data.amount := h3
  refine ⟨?_, hid, hamt, h2, h4, ?_, ?_⟩
  · rw [hp]
    exact persist_of_absent (by rw [hid]; exact hfresh)
  · rw [h5]
    simp [Transaction.new]
  · rw [h6]
    simp [Transaction.new]

/-- An approve or reject that returns has overwritten the stored record of that id, and
only it, with a record that differs from it in status, approver, approval time, update
time and, when its amount is above 5000, `requiresApproval`. -/
theorem resolve_overwrites {env : Env} {coll coll1 : List Transaction} {id approverId : ObjectId}
    {t1 : Transaction}
    (h : TransactionService.approveTransaction env coll id approverId = Except.ok (t1, coll1) ∨
      TransactionService.rejectTransaction env coll id approverId = Except.ok (t1, coll1)) :
    ∃ t, Transaction.findById coll id = some t ∧
      coll1 = coll.map (fun x => if x._id == id then t1 else x) ∧
      t1._id = id ∧ t1.amount = t.amount ∧ t1.userId = t.userId ∧ t1.riskScore = t.riskScore ∧
      t1.requiresApproval = (if t.amount > 5000 then true else t.requiresApproval) ∧
      (t1.amount > 5000 → t1.requiresApproval = true ∧ t1.status = Status.pending) ∧
      Transaction.findById coll1 id = some t1 := by
  have key : ∀ t t0 : Transaction, Transaction.findById coll id = some t →
      Transaction.save env coll t0 = Except.ok (t1, coll1) →
      t0._id = t._id → t0.userId = t.userId → t0.amount = t.amount →
      t0.riskScore = t.riskScore → t0.requiresApproval = t.requiresApproval →
      coll1 = coll.map (fun x => if x._id == id then t1 else x) ∧
      t1._id = id ∧ t1.amount = t.amount ∧ t1.userId = t.userId ∧ t1.riskScore = t.riskScore ∧
      t1.requiresApproval = (if t.amount > 5000 then true else t.requiresApproval) ∧
      (t1.amount > 5000 → t1.requiresApproval = true ∧ t1.status = Status.pending) ∧
      Transaction.findById coll1 id = some t1 := by
    intro t t0 hfind hs e1 e2 e3 e4 e5
    have hid := findById_id hfind
    have hp := save_ok_persist hs
    obtain ⟨hf, h1, h2, h3, h4, h5, h6, _⟩ := save_ok_fields hs
    have hid1 : t1._id = id := by rw [h1, e1, hid]
    rw [e3] at h5 h6
    rw [e5] at h6
    rw [e1, hid] at hf
    refine ⟨?_, hid1, h3.trans e3, h2.trans e2, h4.trans e4, h6, ?_, hf⟩
    · rw [hp, persist_of_present (u := t) (by rw [hid1]; exact hfind), hid1]
    · intro hgt
      rw [h3.trans e3] at hgt
      rw [h6, h5, if_pos hgt, if_pos hgt]
      exact ⟨rfl, rfl⟩
  rcases h with h | h
  · unfold TransactionService.approveTransaction at h
    cases hfind : Transaction.findById coll id with
    | none => rw [hfind] at h; exact absurd h (by simp)
    | some t =>
      rw [hfind] at h
      simp only at h
      split at h
      · exact absurd h (by simp)
      · exact ⟨t, rfl, key t _ hfind h rfl rfl rfl rfl rfl⟩
  · unfold TransactionService.rejectTransaction at h
    cases hfind : Transaction.findById coll id with
    | none => rw [hfind] at h; exact absurd h (by simp)
    | some t =>
      rw [hfind] at h
      simp only at h
      split at h
      · exact absurd h (by simp)
      · exact ⟨t, rfl, key t _ hfind h rfl rfl rfl rfl rfl⟩


theorem storeInvariant_create {env : Env} {coll coll1 : List Transaction}
    {data : TransactionData} {t1 : Transaction} (hinv : storeInvariant coll)
    (hfresh : Transaction.findById coll env.freshId = none)
    (h : TransactionService.createTransaction env coll data = Except.ok (t1, coll1)) :
    storeInvariant coll1 := by
  obtain ⟨hc, hid, hamt, _, _, hst, hreq⟩ := createTransaction_appends hfresh h
  obtain ⟨hnodup, hderived⟩ := hinv
  rw [hc]
  constructor
  · rw [List.map_append, List.map_singleton, List.nodup_append]
    refine ⟨hnodup, List.nodup_singleton _, ?_⟩
    intro a ha hb
    rw [List.mem_singleton] at hb
    rw [hb, hid] at ha
    exact (findById_none_iff.mp hfresh) ha
  · intro x hx hgt
    rw [List.mem_append, List.mem_singleton] at hx
    rcases hx with hx | hx
    · exact hderived x hx hgt
    · rw [hx] at hgt ⊢
      rw [hamt] at hgt
      exact ⟨by rw [hreq]; exact decide_eq_true hgt, hst⟩

theorem storeInvariant_resolve {env : Env} {coll coll1 : List Transaction}
    {id approverId : ObjectId} {t1 : Transaction} (hinv : storeInvariant coll)
    (h : TransactionService.approveTransaction env coll id approverId = Except.ok (t1, coll1) ∨
      TransactionService.rejectTransaction env coll id approverId = Except.ok (t1, coll1)) :
    storeInvariant coll1 ∧ coll1.map Transaction.fixedPart = coll.map Transaction.fixedPart ∧
    (∀ x ∈ coll, x._id ≠ id → x ∈ coll1) := by
  obtain ⟨t, hfind, hc, hid1, hamt, huser, hrisk, hreq, hder1, _⟩ := resolve_overwrites h
  obtain ⟨hnodup, hderived⟩ := hinv
  have hmem := findById_mem hfind
  have hid := findById_id hfind
  have hreq1 : t1.requiresApproval = t.requiresApproval := by
    rw [hreq]
    by_cases hgt : t.amount > 5000
    · rw [if_pos hgt, (hderived t hmem hgt).1]
    · rw [if_neg hgt]
  have hfixed : t1.fixedPart = t.fixedPart := by
    unfold Transaction.fixedPart
    rw [hid1, hid, hamt, huser, hrisk, hreq1]
  have hmap : coll1.map Transaction.fixedPart = coll.map Transaction.fixedPart := by
    rw [hc, List.map_map]
    apply List.map_congr_left
    intro x hx
    by_cases hxid : x._id = id
    · have hxt : x = t :=
        List.inj_on_of_nodup_map hnodup hx hmem (by rw [hxid, hid])
      simp only [Function.comp_apply]
      rw [if_pos (by simpa using hxid), hxt]
      exact hfixed
    · simp only [Function.comp_apply]
      rw [if_neg (by simpa using hxid)]
  have hids : coll1.map (fun x => x._id) = coll.map (fun x => x._id) := by
    have := congrArg (List.map Prod.fst) hmap
    simpa [List.map_map, Function.comp, Transaction.fixedPart] using this
  refine ⟨⟨by rw [hids]; exact hnodup, ?_⟩, hmap, ?_⟩
  · intro x hx hgt
    rw [hc, List.mem_map] at hx
    obtain ⟨y, hy, hyx⟩ := hx
    by_cases hyid : y._id = id
    · have : x = t1 := by simpa [hyid] using hyx.symm
      rw [this] at hgt ⊢
      exact hder1 hgt
    · have : x = y := by simpa [hyid] using hyx.symm
      rw [this] at hgt ⊢
      exact hderived y hy hgt
  · intro x hx hxid
    rw [hc, List.mem_map]
    exact ⟨x, hx, by simp [hxid]⟩

/-- One operation, a create being given a new id, keeps the invariant and keeps the id,
amount, owner, risk score and `requiresApproval` of every stored record, in place; it
can only add a record at the end. -/
theorem storeInvariant_apply (coll : List Transaction) (op : StoreOp)
    (hinv : storeInvariant coll) (hfresh : op.fresh coll = true) :
    storeInvariant (op.apply coll) ∧
    ∃ rest, (op.apply coll).map Transaction.fixedPart = coll.map Transaction.fixedPart ++ rest := by
  cases op with
  | create env data =>
    have hf : Transaction.findById coll env.freshId = none := by
      simpa [StoreOp.fresh] using hfresh
    cases hres : TransactionService.createTransaction env coll data with
    | error e =>
      have happ : StoreOp.apply coll (StoreOp.create env data) = coll := by
        simp only [StoreOp.apply, hres]
      rw [happ]
      exact ⟨hinv, [], by simp⟩
    | ok p =>
      obtain ⟨t1, coll1⟩ := p
      have happ : StoreOp.apply coll (StoreOp.create env data) = coll1 := by
        simp only [StoreOp.apply, hres]
      rw [happ]
      refine ⟨storeInvariant_create hinv hf hres, [t1.fixedPart], ?_⟩
      rw [(createTransaction_appends hf hres).1, List.map_append, List.map_singleton]
  | approve env id approverId =>
    cases hres : TransactionService.approveTransaction env coll id approverId with
    | error e =>
      have happ : StoreOp.apply coll (StoreOp.approve env id approverId) = coll := by
        simp only [StoreOp.apply, hres]
      rw [happ]
      exact ⟨hinv, [], by simp⟩
    | ok p =>
      obtain ⟨t1, coll1⟩ := p
      have happ : StoreOp.apply coll (StoreOp.approve env id approverId) = coll1 := by
        simp only [StoreOp.apply, hres]
      rw [happ]
      obtain ⟨h1, h2, _⟩ := storeInvariant_resolve hinv (Or.inl hres)
      exact ⟨h1, [], by rw [h2, List.append_nil]⟩
  | reject env id approverId =>
    cases hres : TransactionService.rejectTransaction env coll id approverId with
    | error e =>
      have happ : StoreOp.apply coll (StoreOp.reject env id approverId) = coll := by
        simp only [StoreOp.apply, hres]
      rw [happ]
      exact ⟨hinv, [], by simp⟩
    | ok p =>
      obtain ⟨t1, coll1⟩ := p
      have happ : StoreOp.apply coll (StoreOp.reject env id approverId) = coll1 := by
        simp only [StoreOp.apply, hres]
      rw [happ]
      obtain ⟨h1, h2, _⟩ := storeInvariant_resolve hinv (Or.inr hres)
      exact ⟨h1, [], by rw [h2, List.append_nil]⟩

theorem storeInvariant_runOps (ops : List StoreOp) :
    ∀ coll : List Transaction, storeInvariant coll → freshRun coll ops = true →
      storeInvariant (runOps coll ops) ∧
      ∃ rest, (runOps coll ops).map Transaction.fixedPart =
        coll.map Transaction.fixedPart ++ rest := by
  induction ops with
  | nil =>
    intro coll hinv _
    exact ⟨hinv, [], by simp [runOps]⟩
  | cons op ops ih =>
    intro coll hinv hfresh
    simp only [freshRun, Bool.and_eq_true] at hfresh
    obtain ⟨h1, rest1, hr1⟩ := storeInvariant_apply coll op hinv hfresh.1
    obtain ⟨h2, rest2, hr2⟩ := ih (op.apply coll) h1 hfresh.2
    refine ⟨h2, rest1 ++ rest2, ?_⟩
    simp only [runOps]
    rw [hr2, hr1, List.append_assoc]

/-- C19: the pre-save hook leaves a record of at most 5000 as it is and gives a record
above 5000 `requiresApproval = true` and status pending. The record that
`createTransaction`, `approveTransaction` or `rejectTransaction` saves and returns has
`requiresApproval = true` and status pending whenever its amount is above 5000; a create
stores the amount and the owner of the data and the computed risk score; an approve or a
reject keeps the id, amount, owner and risk score of the stored record. On a store that
satisfies the invariant (unique ids, every record above 5000 requiring approval and
pending), a create with a new id keeps the invariant and appends its record to an
otherwise unchanged collection; an approve or a reject keeps the invariant, keeps the id,
amount, owner, risk score and `requiresApproval` of every stored record in place, and
leaves every record with another id exactly as it was. So after any sequence of these
operations, from the empty store or from any store that satisfies the invariant, the
invariant holds and every record ever stored is still stored, at its place, with its id,
amount, owner, risk score and `requiresApproval`. -/
theorem saved_record_invariant :
    (∀ t : Transaction, t.amount ≤ 5000 → t.preSave = t) ∧
    (∀ t : Transaction, t.amount > 5000 →
      t.preSave.requiresApproval = true ∧ t.preSave.status = Status.pending) ∧
    (∀ (env : Env) (coll coll1 : List Transaction) (data : TransactionData) (t1 : Transaction),
      TransactionService.createTransaction env coll data = Except.ok (t1, coll1) →
      (t1.amount > 5000 → t1.requiresApproval = true ∧ t1.status = Status.pending) ∧
      t1.amount = data.amount ∧ t1.userId = data.userId ∧
      t1.riskScore = TransactionService.calculateRiskScore data env.hour ∧
      Transaction.findById coll1 t1._id = some t1) ∧
    (∀ (env : Env) (coll coll1 : List Transaction) (id approverId : ObjectId) (t1 : Transaction),
      (TransactionService.approveTransaction env coll id approverId = Except.ok (t1, coll1) ∨
       TransactionService.rejectTransaction env coll id approverId = Except.ok (t1, coll1)) →
      ∃ t, Transaction.findById coll id = some t ∧
        (t1.amount > 5000 → t1.requiresApproval = true ∧ t1.status = Status.pending) ∧
        t1._id = t._id ∧ t1.amount = t.amount ∧ t1.userId = t.userId ∧
        t1.riskScore = t.riskScore ∧ Transaction.findById coll1 id = some t1) ∧
    (∀ (env : Env) (coll coll1 : List Transaction) (data : TransactionData) (t1 : Transaction),
      storeInvariant coll → Transaction.findById coll env.freshId = none →
      TransactionService.createTransaction env coll data = Except.ok (t1, coll1) →
      storeInvariant coll1 ∧ coll1 = coll ++ [t1]) ∧
    (∀ (env : Env) (coll coll1 : List Transaction) (id approverId : ObjectId) (t1 : Transaction),
      storeInvariant coll →
      (TransactionService.approveTransaction env coll id approverId = Except.ok (t1, coll1) ∨
       TransactionService.rejectTransaction env coll id approverId = Except.ok (t1, coll1)) →
      storeInvariant coll1 ∧
      coll1.map Transaction.fixedPart = coll.map Transaction.fixedPart ∧
      (∀ x ∈ coll, x._id ≠ id → x ∈ coll1)) ∧
    (∀ (coll : List Transaction) (ops : List StoreOp),
      storeInvariant coll → freshRun coll ops = true →
      storeInvariant (runOps coll ops) ∧
      ∃ rest, (runOps coll ops).map Transaction.fixedPart =
        coll.map Transaction.fixedPart ++ rest) ∧
    storeInvariant [] := by
  refine ⟨?_, ?_, ?_, ?_, ?_, ?_, ?_, ?_⟩
  · intro t h
    unfold Transaction.preSave
    rw [if_neg (not_lt.mpr h)]
  · intro t h
    unfold Transaction.preSave
    rw [if_pos h]
    exact ⟨rfl, rfl⟩
  · intro env coll coll1 data t1 h
    unfold TransactionService.createTransaction at h
    obtain ⟨hf, h1, h2, h3, h4, h5, h6, _⟩ := save_ok_fields h
    refine ⟨?_, h3, h2, h4, ?_⟩
    · intro hgt
      rw [h3] at hgt
      have hgt1 : (Transaction.new env data).amount > 5000 := hgt
      rw [h5, h6]
      simp only [Transaction.new] at hgt1 ⊢
      rw [if_pos hgt1, if_pos hgt1]
      exact ⟨rfl, rfl⟩
    · rw [h1]; exact hf
  · intro env coll coll1 id approverId t1 h
    obtain ⟨t, hfind, _, hid1, hamt, huser, hrisk, _, hder, hf⟩ := resolve_overwrites h
    exact ⟨t, hfind, hder, by rw [hid1, findById_id hfind], hamt, huser, hrisk, hf⟩
  · intro env coll coll1 data t1 hinv hfresh h
    exact ⟨storeInvariant_create hinv hfresh h, (createTransaction_appends hfresh h).1⟩
  · intro env coll coll1 id approverId t1 hinv h
    exact storeInvariant_resolve hinv h
  · intro coll ops hinv hfresh
    exact storeInvariant_runOps ops coll hinv hfresh
  · exact ⟨List.nodup_nil, fun x hx => absurd hx (List.not_mem_nil x)⟩

/-- C19, at the run of five operations on the empty store (the two records created keep
their amount, owner, risk score and `requiresApproval` through the approve and the two
rejects), and at the approve of record 7 in a store of three records. -/
theorem saved_record_invariant_witness :
    (storeInvariant (runOps [] sampleRun) ∧
      ∃ rest, (runOps [] sampleRun).map Transaction.fixedPart =
        ([] : List Transaction).map Transaction.fixedPart ++ rest) ∧
    (runOps [] sampleRun).map Transaction.fixedPart =
      [(7, 6000, 1, 20, true), (8, 800, 1, 0, false)] ∧
    (storeInvariant [sampleResolved, sampleHighValueSaved, samplePendingLarge] ∧
      [sampleResolved, sampleHighValueSaved, samplePendingLarge].map Transaction.fixedPart =
        sampleStore.map Transaction.fixedPart ∧
      (∀ x ∈ sampleStore, x._id ≠ 7 →
        x ∈ [sampleResolved, sampleHighValueSaved, samplePendingLarge])) :=
  ⟨saved_record_invariant.2.2.2.2.2.2.1 [] sampleRun saved_record_invariant.2.2.2.2.2.2.2
      (by decide),
   by decide,
   saved_record_invariant.2.2.2.2.2.1 sampleEnv sampleStore
      [sampleResolved, sampleHighValueSaved, samplePendingLarge] 7 2 sampleHighValueSaved
      ⟨by decide, by decide⟩ (Or.inl (by rfl))⟩

end TransactionAuth
